import Mathlib

/-!
Verification development for the TikTok media downloader
(source: `src/TT_downloader.py`).

Python strings are modelled as `List Char`, Python exceptions as an
explicit error type, and the interpreter/OS environment (HTTP transport,
filesystem, the mutable `patterns` global, the archive file) as an
explicit `World` record threaded through every function that the source
lets perform effects.  Each Lean definition follows the body of the
Python function of the same name.
-/

namespace TT

/-- Python exception classes that the source raises or catches. -/
inductive PyErr where
  | keyError
  | typeError
  | attributeError
  | indexError
  | fileNotFound
  | reError
  | sysExit
  deriving Repr, DecidableEq

/-- Python values that flow through the program: JSON-decoded data,
`None`, strings, ints and bools.  Lists and dicts carry their elements. -/
inductive JVal where
  | null
  | bool (b : Bool)
  | num (n : Int)
  | str (s : List Char)
  | arr (xs : List JVal)
  | obj (fields : List (List Char × JVal))
  deriving Repr

-- ---------------------------------------------------------------------------
-- String helpers shared by several source functions
-- ---------------------------------------------------------------------------

/-- ASCII lowercasing of one character, as `str.lower` / `re.IGNORECASE`
do for the ASCII letters involved in the source patterns. -/
def asciiLower (c : Char) : Char :=
  if 'A' ≤ c ∧ c ≤ 'Z' then Char.ofNat (c.toNat + 32) else c

/-- `str.lower()` over the modelled string. -/
def toLowerStr (s : List Char) : List Char := s.map asciiLower

/-- The whitespace set stripped by Python `str.strip()` (ASCII part; the
source only ever strips template output and CLI arguments). -/
def pyIsSpace (c : Char) : Bool :=
  c = ' ' || c = '\t' || c = '\n' || c = '\r' || c = '\x0b' || c = '\x0c'

/-- Python `str.strip()`. -/
def pyStrip (s : List Char) : List Char :=
  ((s.dropWhile pyIsSpace).reverse.dropWhile pyIsSpace).reverse

/-- Worker for `natStr`, structurally recursive on a fuel bound (any
fuel above the argument computes the digits; see `foldl_natStrGo`). -/
def natStrGo : Nat → Nat → List Char
  | 0, _ => []
  | fuel + 1, n =>
    if n < 10 then [Nat.digitChar n]
    else natStrGo fuel (n / 10) ++ [Nat.digitChar (n % 10)]

/-- Decimal digits of a natural number, exactly as Python `str(n)`
renders it (no sign, no leading zeros except for `0` itself). -/
def natStr (n : Nat) : List Char := natStrGo (n + 1) n

/-- Python `str(i)` for an int. -/
def intStr (i : Int) : List Char :=
  if i < 0 then '-' :: natStr i.natAbs else natStr i.natAbs

/-- Python `str.zfill(width)` for the non-negative strings the source
pads (`str(pad_number).zfill(2)`). -/
def zfill (width : Nat) (s : List Char) : List Char :=
  List.replicate (width - s.length) '0' ++ s

/-- Value of a digit character. -/
def digitVal (c : Char) : Nat := c.toNat - 48

/-- Reads a digit string back as a number; used only to reason about
`natStr` (leading zeros are ignored, like `int(s)`). -/
def strVal (s : List Char) : Nat :=
  s.foldl (fun a c => 10 * a + digitVal c) 0

def isDigit (c : Char) : Bool := '0' ≤ c ∧ c ≤ '9'

/-- `len(suffix) ≤ len(s)` and `s` ends with `suffix` (Python
`str.endswith`). -/
def endsWithStr (suffix s : List Char) : Bool :=
  suffix.length ≤ s.length && s.drop (s.length - suffix.length) == suffix

-- ---------------------------------------------------------------------------
-- `os.path.splitext` (posixpath variant: the separator is '/')
-- ---------------------------------------------------------------------------

/-- Index of the last occurrence of `c` in `s` (Python `str.rfind`),
`none` when absent. -/
def lastIdxOf (c : Char) (s : List Char) : Option Nat :=
  (s.foldl (fun (st : Nat × Option Nat) x =>
      (st.1 + 1, if x = c then some st.1 else st.2)) (0, none)).2

/-- `os.path.splitext`: split off the extension at the last dot, unless
every character of the basename before that dot is itself a dot. -/
def splitext (p : List Char) : List Char × List Char :=
  match lastIdxOf '.' p with
  | none => (p, [])
  | some di =>
    let start : Nat :=
      match lastIdxOf '/' p with
      | none => 0
      | some si => si + 1
    if start ≤ di then
      if ((p.drop start).take (di - start)).any (fun c => c ≠ '.') then
        (p.take di, p.drop di)
      else (p, [])
    else (p, [])

-- ---------------------------------------------------------------------------
-- `str.splitlines` (the terminators the archive file can contain)
-- ---------------------------------------------------------------------------

def isLineTerm (c : Char) : Bool := c = '\n' || c = '\r'

/-- Worker for `splitlines`; `acc` holds the characters of the current
line read so far. -/
def splitlinesAux : List Char → List Char → List (List Char)
  | [], acc => if acc = [] then [] else [acc]
  | '\r' :: '\n' :: rest, acc => acc :: splitlinesAux rest []
  | '\r' :: rest, acc => acc :: splitlinesAux rest []
  | '\n' :: rest, acc => acc :: splitlinesAux rest []
  | c :: rest, acc => splitlinesAux rest (acc ++ [c])

/-- Python `str.splitlines()`: split at `\n`, `\r` and `\r\n`, with no
empty line for a trailing terminator. -/
def splitlines (s : List Char) : List (List Char) := splitlinesAux s []

-- ---------------------------------------------------------------------------
-- Python semantics of the operations the source applies to JSON data
-- ---------------------------------------------------------------------------

/-- `value[key]` for a string key: dicts look the key up and raise
`KeyError` when absent; every other value raises `TypeError`. -/
def jSub (v : JVal) (key : List Char) : Except PyErr JVal :=
  match v with
  | .obj fields =>
    match fields.lookup key with
    | some x => .ok x
    | none => .error .keyError
  | _ => .error .typeError

/-- `value[i]` for an int index: lists and strings index (raising
`IndexError` out of range), dicts raise `KeyError`, the rest
`TypeError`. -/
def jIdx (v : JVal) (i : Nat) : Except PyErr JVal :=
  match v with
  | .arr xs =>
    match xs.get? i with
    | some x => .ok x
    | none => .error .indexError
  | .str s =>
    match s.get? i with
    | some c => .ok (.str [c])
    | none => .error .indexError
  | .obj _ => .error .keyError
  | _ => .error .typeError

/-- Python `value == s` for a string literal `s`: only an equal string
compares equal (an int or `None` never equals a str). -/
def jEqStr (v : JVal) (s : List Char) : Bool :=
  match v with
  | .str t => t == s
  | _ => false

/-- The `except (TypeError, AttributeError, IndexError)` clause the
source wraps its field extractions in: those three errors are swallowed,
everything else (notably `KeyError`) propagates. -/
def catchTAI (r : Except PyErr α) : Except PyErr (Option α) :=
  match r with
  | .ok a => .ok (some a)
  | .error .typeError => .ok none
  | .error .attributeError => .ok none
  | .error .indexError => .ok none
  | .error e => .error e

/-- Python `value.strip()`: defined on strings, `AttributeError` on
anything else (`None`, ints, lists, dicts). -/
def pyStripMethod (v : JVal) : Except PyErr JVal :=
  match v with
  | .str s => .ok (.str (pyStrip s))
  | _ => .error .attributeError

/-- Python `value != 0` (`False == 0`, `True == 1`; non-numbers are
never equal to `0`). -/
def pyNeZero (v : JVal) : Bool :=
  match v with
  | .num n => decide (n ≠ 0)
  | .bool b => b
  | _ => true

/-- Iterating a Python value (`for x in v`): lists yield elements,
strings their characters, dicts their keys; the rest raise
`TypeError`. -/
def jIter (v : JVal) : Except PyErr (List JVal) :=
  match v with
  | .arr xs => .ok xs
  | .str s => .ok (s.map fun c => .str [c])
  | .obj fields => .ok (fields.map fun f => .str f.1)
  | _ => .error .typeError

def quoteChar : Char := Char.ofNat 39
def lbrace : Char := Char.ofNat 123
def rbrace : Char := Char.ofNat 125

mutual
/-- Python `repr(value)` (quote escaping inside nested strings is not
reproduced — the source never feeds containers to `str`). -/
def pyRepr : JVal → List Char
  | .null => "None".toList
  | .bool true => "True".toList
  | .bool false => "False".toList
  | .num n => intStr n
  | .str s => quoteChar :: s ++ [quoteChar]
  | .arr xs => '[' :: pyReprList xs ++ [']']
  | .obj fields => lbrace :: pyReprFields fields ++ [rbrace]

def pyReprList : List JVal → List Char
  | [] => []
  | [x] => pyRepr x
  | x :: y :: xs => pyRepr x ++ (", ".toList ++ pyReprList (y :: xs))

def pyReprFields : List (List Char × JVal) → List Char
  | [] => []
  | [kv] => (quoteChar :: kv.1 ++ [quoteChar]) ++ (": ".toList ++ pyRepr kv.2)
  | kv :: kv2 :: fs =>
    (quoteChar :: kv.1 ++ [quoteChar]) ++ (": ".toList ++ pyRepr kv.2)
      ++ (", ".toList ++ pyReprFields (kv2 :: fs))
end

/-- Python `str(value)`: `None` renders as `"None"`, bools as
`True`/`False`, numbers in decimal, strings as themselves; containers
render as their `repr`. -/
def pyStr : JVal → List Char
  | .null => "None".toList
  | .bool true => "True".toList
  | .bool false => "False".toList
  | .num n => intStr n
  | .str s => s
  | .arr xs => pyRepr (.arr xs)
  | .obj fields => pyRepr (.obj fields)

-- ---------------------------------------------------------------------------
-- The `patterns` global (module constants PATTERN_* and PATTERNS_TEMPLATE)
-- ---------------------------------------------------------------------------

def PATTERN_DESC : List Char := "description".toList
def PATTERN_MOD_TIME : List Char := "mod_time".toList
def PATTERN_AUTHOR_ID : List Char := "author_id".toList
def PATTERN_AUTHOR_NAME : List Char := "author_name".toList
def PATTERN_MEDIA_HEIGHT : List Char := "media_height".toList
def PATTERN_MEDIA_WIDTH : List Char := "media_width".toList
def PATTERN_MEDIA_ID : List Char := "media_id".toList
def PATTERN_COUNTRY : List Char := "country_code".toList
def PATTERN_URL : List Char := "url".toList

/-- The nine entries of the `patterns` dict.  Each value is a Python
value (`JVal.null` models `None`). -/
structure Patterns where
  description : JVal
  mod_time : JVal
  author_id : JVal
  author_name : JVal
  media_height : JVal
  media_width : JVal
  media_id : JVal
  country_code : JVal
  url : JVal
  deriving Repr

/-- `PATTERNS_TEMPLATE`: every value `None`. -/
def PATTERNS_TEMPLATE : Patterns :=
  ⟨.null, .null, .null, .null, .null, .null, .null, .null, .null⟩

/-- `patterns.keys()` iteration order with the associated values
(Python dicts iterate in insertion order of the template). -/
def patternItems (p : Patterns) : List (List Char × JVal) :=
  [(PATTERN_DESC, p.description), (PATTERN_MOD_TIME, p.mod_time),
   (PATTERN_AUTHOR_ID, p.author_id), (PATTERN_AUTHOR_NAME, p.author_name),
   (PATTERN_MEDIA_HEIGHT, p.media_height), (PATTERN_MEDIA_WIDTH, p.media_width),
   (PATTERN_MEDIA_ID, p.media_id), (PATTERN_COUNTRY, p.country_code),
   (PATTERN_URL, p.url)]

-- ---------------------------------------------------------------------------
-- sanitize_pattern
-- ---------------------------------------------------------------------------

/-- `sys.platform` values the source distinguishes. -/
inductive Platform where
  | win32 | msys | cygwin | darwin | linux | other
  deriving Repr, DecidableEq

/-- The `illegal_characters` mapping built by `sanitize_pattern`, in the
source's insertion order (full-width look-alikes as replacement). -/
def illegal_characters (pf : Platform) : List (Char × Char) :=
  match pf with
  | .win32 | .msys | .cygwin =>
    [('<', '﹤'), ('>', '﹥'), (':', '﹕'), ('"', '＂'),
     ('/', '／'), ('\\', '＼'), ('|', '｜'), ('?', '？'),
     ('*', '＊')]
  | .darwin | .linux => [('/', '／')]
  | .other => []

/-- Python `str.replace(old, new)` for one-character `old`/`new` (all
the source's replacements are single characters; the
`encode("utf-8").decode("utf-8")` round-trip in the source is the
identity). -/
def pyReplaceChar (old rep : Char) (s : List Char) : List Char :=
  s.map fun c => if c = old then rep else c

/-- `sanitize_pattern`: replace each illegal character (when present)
with its full-width look-alike, scanning the mapping in order. -/
def sanitize_pattern (pf : Platform) (string : List Char) : List Char :=
  (illegal_characters pf).foldl
    (fun s cd => if cd.1 ∈ s then pyReplaceChar cd.1 cd.2 s else s) string

-- ---------------------------------------------------------------------------
-- get_output_name
-- ---------------------------------------------------------------------------

/-- Case-insensitive "`pat` begins `s`" used to model
`re.sub(..., flags=re.IGNORECASE)` on the escaped literal patterns. -/
def beginsCI : List Char → List Char → Bool
  | [], _ => true
  | _ :: _, [] => false
  | p :: ps, c :: cs => asciiLower p = asciiLower c && beginsCI ps cs

def isAsciiLetter (c : Char) : Bool :=
  ('a' ≤ c && c ≤ 'z') || ('A' ≤ c && c ≤ 'Z')

def isOctDigit (c : Char) : Bool := '0' ≤ c && c ≤ '7'

def isIdentStart (c : Char) : Bool := isAsciiLetter c || c = '_'

def isIdentChar (c : Char) : Bool := isAsciiLetter c || isDigit c || c = '_'

/-- One piece of a parsed `re.sub` replacement template: a literal
character, or a reference to group 0 (the whole match; the source's
patterns are `re.escape`d literals, so they contain no other group). -/
inductive TemplSeg where
  | ch (c : Char)
  | group0

/-- The simple escapes a replacement template accepts
(`\a \b \f \n \r \t \v \\`). -/
def templEscape (c : Char) : Option Char :=
  if c = 'a' then some (Char.ofNat 7)
  else if c = 'b' then some (Char.ofNat 8)
  else if c = 'f' then some (Char.ofNat 12)
  else if c = 'n' then some '\n'
  else if c = 'r' then some '\r'
  else if c = 't' then some '\t'
  else if c = 'v' then some (Char.ofNat 11)
  else if c = '\\' then some '\\'
  else none

def octVal (c : Char) : Nat := c.toNat - 48

/-- Parser for an `re.sub` replacement template against a pattern with
zero groups, as CPython's `parse_template` behaves (verified against
CPython): `\g<0>` references the whole match and `\g<nonzero>` or
`\1`..`\9` raise `re.error` ("invalid group reference"); `\g<name>`
raises `IndexError` ("unknown group name") for an identifier and
`re.error` otherwise; `\0` takes up to two octal digits; `\a \b \f \n
\r \t \v \\` are the recognised escapes; any other escaped ASCII letter
or malformed `\g` raises `re.error` ("bad escape"), as does a trailing
lone backslash; an escaped non-letter is kept literally together with
its backslash.  Every step consumes at least one character, so
`repl.length + 1` rounds of fuel are never exhausted. -/
def parseReplGo : Nat → List Char → Except PyErr (List TemplSeg)
  | 0, _ => .ok []
  | fuel + 1, repl =>
    match repl with
    | [] => .ok []
    | '\\' :: rest =>
      match rest with
      | [] => .error .reError
      | c :: rest2 =>
        if c = 'g' then
          match rest2 with
          | '<' :: r3 =>
            let name := r3.takeWhile (fun x => x ≠ '>')
            let r4 := r3.dropWhile (fun x => x ≠ '>')
            match r4 with
            | _ :: r5 =>
              if name = [] then .error .reError
              else if name.all isDigit then
                if strVal name = 0 then
                  (parseReplGo fuel r5).bind fun segs => .ok (.group0 :: segs)
                else .error .reError
              else
                match name with
                | n0 :: nrest =>
                  if isIdentStart n0 && nrest.all isIdentChar then
                    .error .indexError
                  else .error .reError
                | [] => .error .reError
            | [] => .error .reError
          | _ => .error .reError
        else if c = '0' then
          match rest2 with
          | d1 :: d2 :: r6 =>
            if isOctDigit d1 && isOctDigit d2 then
              (parseReplGo fuel r6).bind fun segs =>
                .ok (.ch (Char.ofNat (8 * octVal d1 + octVal d2)) :: segs)
            else if isOctDigit d1 then
              (parseReplGo fuel (d2 :: r6)).bind fun segs =>
                .ok (.ch (Char.ofNat (octVal d1)) :: segs)
            else
              (parseReplGo fuel rest2).bind fun segs =>
                .ok (.ch (Char.ofNat 0) :: segs)
          | [d1] =>
            if isOctDigit d1 then
              (parseReplGo fuel []).bind fun segs =>
                .ok (.ch (Char.ofNat (octVal d1)) :: segs)
            else
              (parseReplGo fuel rest2).bind fun segs =>
                .ok (.ch (Char.ofNat 0) :: segs)
          | [] => .ok [.ch (Char.ofNat 0)]
        else if isDigit c then .error .reError
        else
          match templEscape c with
          | some e =>
            (parseReplGo fuel rest2).bind fun segs => .ok (.ch e :: segs)
          | none =>
            if isAsciiLetter c then .error .reError
            else
              (parseReplGo fuel rest2).bind fun segs =>
                .ok (.ch '\\' :: .ch c :: segs)
    | c :: rest =>
      (parseReplGo fuel rest).bind fun segs => .ok (.ch c :: segs)

def parseRepl (repl : List Char) : Except PyErr (List TemplSeg) :=
  parseReplGo (repl.length + 1) repl

/-- Expand a parsed template at one match (`matched` is the slice of
the subject the pattern matched, case preserved). -/
def applySegs (segs : List TemplSeg) (matched : List Char) : List Char :=
  segs.foldr
    (fun sg acc =>
      match sg with
      | .ch c => c :: acc
      | .group0 => matched ++ acc) []

/-- Worker for `replaceCI`; the pattern `p0 :: ps` is non-empty, so
every step consumes at least one character and `s.length + 1` rounds of
fuel are never exhausted. -/
def replaceCIGo (p0 : Char) (ps : List Char) (segs : List TemplSeg) :
    Nat → List Char → List Char
  | 0, s => s
  | fuel + 1, s =>
    match s with
    | [] => []
    | c :: cs =>
      if beginsCI (p0 :: ps) (c :: cs) then
        applySegs segs ((c :: cs).take (ps.length + 1))
          ++ replaceCIGo p0 ps segs fuel ((c :: cs).drop (ps.length + 1))
      else c :: replaceCIGo p0 ps segs fuel cs

/-- `re.sub(re.escape(pat), rep, s, flags=re.IGNORECASE)`: the
replacement template is parsed first (CPython parses it before
scanning, so a bad escape raises even when nothing matches), then each
leftmost, non-overlapping, case-insensitive occurrence of the literal
`pat` is replaced by the expanded template; the replacement is not
rescanned.  (The source's patterns `"%<name>%"` are never empty.) -/
def replaceCI (pat rep s : List Char) : Except PyErr (List Char) :=
  (parseRepl rep).bind fun segs =>
    .ok (match pat with
      | [] => s
      | p :: ps => replaceCIGo p ps segs (s.length + 1) s)

/-- The substitution value for one placeholder: sanitized `str()` of the
pattern value, truncated to 190 (description) or 40 (author name). -/
def patternValue (pf : Platform) (key : List Char) (v : JVal) : List Char :=
  if key = PATTERN_DESC then (sanitize_pattern pf (pyStr v)).take 190
  else if key = PATTERN_AUTHOR_NAME then (sanitize_pattern pf (pyStr v)).take 40
  else sanitize_pattern pf (pyStr v)

/-- The loop of `get_output_name` over the pattern items, in dict
order; an `re.error`/`IndexError` from a replacement template aborts
the call (nothing in `get_output_name` catches it). -/
def substituteGo (pf : Platform) (ignore_patterns : List (List Char)) :
    List (List Char × JVal) → List Char → Except PyErr (List Char)
  | [], name => .ok name
  | kv :: rest, name =>
    if kv.1 ∈ ignore_patterns then substituteGo pf ignore_patterns rest name
    else
      (replaceCI (('%' :: kv.1) ++ ['%']) (patternValue pf kv.1 kv.2)
        name).bind fun name2 => substituteGo pf ignore_patterns rest name2

/-- The loop body of `get_output_name` over all nine patterns. -/
def substitutePatterns (pf : Platform) (pats : Patterns)
    (output_name : List Char) (ignore_patterns : List (List Char)) :
    Except PyErr (List Char) :=
  substituteGo pf ignore_patterns (patternItems pats) output_name

/-- `get_output_name` (the `patterns` global is passed explicitly): the
substituted template, `"_"` when it strips to empty, stripped.  A
backslash escape in a substituted value that the replacement template
rejects propagates as an uncaught error. -/
def get_output_name (pf : Platform) (pats : Patterns)
    (output_name : List Char) (ignore_patterns : List (List Char)) :
    Except PyErr (List Char) :=
  (substitutePatterns pf pats output_name ignore_patterns).bind
    fun substituted =>
      .ok (pyStrip (if pyStrip substituted = [] then ['_'] else substituted))

-- ---------------------------------------------------------------------------
-- pad_filename (the filesystem is the list of existing paths)
-- ---------------------------------------------------------------------------

/-- The candidate `name + "_" + str(k).zfill(2) + ext` that iteration
`k` of `pad_filename`'s loop builds from the original filename. -/
def padCandidate (orig : List Char) (k : Nat) : List Char :=
  let ne := splitext orig
  ne.1 ++ ('_' :: zfill 2 (natStr k)) ++ ne.2

/-- The `while os.path.exists(filename)` loop of `pad_filename`.  The
source's loop is unbounded; `fs.length + 2` iterations provably reach a
free name (see `pad_filename_spec`), so the bounded loop computes the
same result as the source's. -/
def padLoop (fs : List (List Char)) (orig cur : List Char)
    (k fuel : Nat) : List Char :=
  match fuel with
  | 0 => cur
  | fuel + 1 =>
    if cur ∈ fs then padLoop fs orig (padCandidate orig k) (k + 1) fuel else cur

/-- `pad_filename`. -/
def pad_filename (fs : List (List Char)) (filename : List Char) : List Char :=
  padLoop fs filename filename 1 (fs.length + 2)

-- ---------------------------------------------------------------------------
-- os.path.abspath (posixpath)
-- ---------------------------------------------------------------------------

def isAbs (p : List Char) : Bool :=
  match p with
  | '/' :: _ => true
  | _ => false

/-- One step of posix `normpath`'s component stack. -/
def normStep (absolute : Bool) (st : List (List Char)) (c : List Char) :
    List (List Char) :=
  if c = ['.', '.'] then
    match st.getLast? with
    | some l => if l = ['.', '.'] then st ++ [c] else st.dropLast
    | none => if absolute then [] else [c]
  else st ++ [c]

/-- posix `os.path.normpath` (the special two-leading-slash case is not
reproduced; no claim depends on it). -/
def normpath (p : List Char) : List Char :=
  let absolute := isAbs p
  let comps := (p.splitOn '/').filter fun c => !(c = [] || c = ['.'])
  let stack := comps.foldl (normStep absolute) []
  let joined := List.intercalate ['/'] stack
  if absolute then '/' :: joined
  else if stack = [] then ['.'] else joined

/-- posix `os.path.abspath` relative to the working directory `cwd`. -/
def abspath (cwd p : List Char) : List Char :=
  if isAbs p then normpath p else normpath (cwd ++ ('/' :: p))

-- ---------------------------------------------------------------------------
-- The three URL regexes (REGEX_VIDEO_ID, REGEX_PHOTO_ID, REGEX_TIKTOK_URL),
-- implemented as direct matchers.  `re.search` tries every start position
-- left to right; the patterns end in `$`, which Python matches at the end
-- of the string or just before one final newline.  `.` does not match a
-- newline.  The character classes `[^?/]` and `[0-9]` are unambiguous next
-- to the literals that follow them, so greedy matching needs no
-- backtracking (the class excludes the literal's first character).
-- ---------------------------------------------------------------------------

/-- Character comparison, optionally case-insensitive (`re.IGNORECASE`). -/
def cEq (ci : Bool) (a b : Char) : Bool :=
  if ci then asciiLower a = asciiLower b else a = b

/-- Consume the literal `lit` from the front of `s`. -/
def dropLit (ci : Bool) (lit s : List Char) : Option (List Char) :=
  match lit, s with
  | [], rest => some rest
  | _ :: _, [] => none
  | l :: ls, c :: cs => if cEq ci l c then dropLit ci ls cs else none

theorem dropLit_length {ci : Bool} {lit s s2 : List Char}
    (h : dropLit ci lit s = some s2) : s2.length + lit.length = s.length := by
  induction lit generalizing s with
  | nil => simp [dropLit] at h; simp [h]
  | cons l ls ih =>
    match s with
    | [] => simp [dropLit] at h
    | c :: cs =>
      simp only [dropLit] at h
      split at h
      · have := ih h; simp; omega
      · exact absurd h (by simp)

/-- Worker for `wwwStar`: each iteration consumes four characters, so
`s.length + 1` rounds of fuel are never exhausted. -/
def wwwStarGo (ci : Bool) : Nat → List Char → List Char
  | 0, s => s
  | fuel + 1, s =>
    match dropLit ci "www.".toList s with
    | some s2 => wwwStarGo ci fuel s2
    | none => s

/-- Greedy `(?:www\.)*`. -/
def wwwStar (ci : Bool) (s : List Char) : List Char :=
  wwwStarGo ci (s.length + 1) s

/-- `https:\/\/(?:www\.)*tiktok\.com\/@[^?\/]+\/<word>\/` — the common
account prefix of the three regexes, with `word` the subdirectory
(`"video"` or `"photo"`) or `none` for REGEX_TIKTOK_URL (whose group 1
stops after the account name).  Returns the rest of the string. -/
def dropAccount (ci : Bool) (s : List Char) : Option (List Char) :=
  match dropLit ci "https://".toList s with
  | none => none
  | some s1 =>
    let s2 := wwwStar ci s1
    match dropLit ci "tiktok.com/@".toList s2 with
    | none => none
    | some s3 =>
      let name := s3.takeWhile fun c => !(c = '?' || c = '/')
      let s4 := s3.dropWhile fun c => !(c = '?' || c = '/')
      if name = [] then none else some s4

/-- `$` in Python: end of string, or just before one final newline. -/
def atEnd (s : List Char) : Bool :=
  s = [] || s = ['\n']

/-- `(?:\?.+)?$` applied after an optional query part: either `$`
directly, or `?` followed by at least one non-newline character and
`$`. -/
def queryEnd (s : List Char) : Bool :=
  atEnd s ||
    match s with
    | '?' :: t =>
      match t.getLast? with
      | some '\n' => decide (t.dropLast ≠ []) && !t.dropLast.any (· = '\n')
      | some _ => !t.any (· = '\n')
      | none => false
    | _ => false

/-- The tail `(?:([0-9]+)?(?:\?.+)?$|$)` of REGEX_VIDEO_ID and
REGEX_PHOTO_ID: maximal digits as group 1 (absent when empty), then the
optional query, then `$`.  Returns `none` on no match, otherwise
group 1. -/
def idTail (s : List Char) : Option (Option (List Char)) :=
  let ds := s.takeWhile isDigit
  let rest := s.dropWhile isDigit
  if queryEnd rest then some (if ds = [] then none else some ds) else none

/-- Match REGEX_VIDEO_ID / REGEX_PHOTO_ID at the current position
(`word` is `"video"` or `"photo"`; the account prefix is followed by
the literal `/<word>/`). -/
def matchIdAt (word : List Char) (s : List Char) : Option (Option (List Char)) :=
  match dropAccount false s with
  | none => none
  | some s4 =>
    match dropLit false (('/' :: word) ++ ['/']) s4 with
    | none => none
    | some s6 => idTail s6

/-- `re.search` for REGEX_VIDEO_ID / REGEX_PHOTO_ID: try each start
position; on a match return group 1 (possibly absent). -/
def searchId (word : List Char) (s : List Char) : Option (Option (List Char)) :=
  match matchIdAt word s with
  | some g => some g
  | none =>
    match s with
    | [] => none
    | _ :: t => searchId word t

/-- The optional group 2 `(\/(?:video|photo)\/[0-9]+)` of
REGEX_TIKTOK_URL: returns the consumed slice and the rest. -/
def contentSuffix (s : List Char) : Option (List Char × List Char) :=
  match s with
  | '/' :: r1 =>
    let afterWord :=
      match dropLit true "video".toList r1 with
      | some r2 => some r2
      | none => dropLit true "photo".toList r1
    match afterWord with
    | none => none
    | some r2 =>
      match r2 with
      | '/' :: r3 =>
        let ds := r3.takeWhile isDigit
        let rest := r3.dropWhile isDigit
        if ds = [] then none
        else some (s.take (s.length - rest.length), rest)
      | _ => none
  | _ => none

/-- Match REGEX_TIKTOK_URL at the current position (IGNORECASE); returns
(group 1, group 2). -/
def matchTiktokAt (s : List Char) : Option (List Char × Option (List Char)) :=
  match dropAccount true s with
  | none => none
  | some s4 =>
    let g1 := s.take (s.length - s4.length)
    match contentSuffix s4 with
    | some (g2, rest) => if queryEnd rest then some (g1, some g2) else none
    | none => if queryEnd s4 then some (g1, none) else none

/-- `re.search(REGEX_TIKTOK_URL, url, re.IGNORECASE)`. -/
def searchTiktok (s : List Char) : Option (List Char × Option (List Char)) :=
  match matchTiktokAt s with
  | some g => some g
  | none =>
    match s with
    | [] => none
    | _ :: t => searchTiktok t

-- ---------------------------------------------------------------------------
-- The environment: transport oracles, filesystem, archive file and the
-- `patterns` global, threaded through every effectful source function.
-- ---------------------------------------------------------------------------

/-- One API endpoint's answer: HTTP status and, for a readable body, its
JSON decoding (`none` body = `json.loads` raises `JSONDecodeError`). -/
structure ApiResp where
  status : Nat
  body : Option JVal

/-- One media URL's answer: HTTP status, and whether streaming the body
to disk completes without an I/O error. -/
structure DlResp where
  status : Nat
  streamOk : Bool

/-- The world a run executes in.  `fs` is the set of existing file
paths; `archive` the archive file's content (`none` = file absent);
`patterns` the mutable global; `apiCalls`/`dlCalls` record every HTTP
request issued, newest last. -/
structure World where
  platform : Platform
  cwd : List Char
  fs : List (List Char)
  archive : Option (List Char)
  patterns : Patterns
  api : Nat → ApiResp
  dl : List Char → DlResp
  openOk : List Char → Bool
  ffmpegOk : Bool
  apiCalls : List Nat
  dlCalls : List (List Char)

/-- Result of running a Python fragment: a value or a raised exception,
together with the world as left behind (effects persist across a
raise). -/
inductive PyResult (α : Type) where
  | ok (a : α) (w : World)
  | err (e : PyErr) (w : World)

/-- Sequencing: exceptions propagate. -/
def PyResult.andThen (r : PyResult α) (f : α → World → PyResult β) : PyResult β :=
  match r with
  | .ok a w => f a w
  | .err e w => .err e w

/-- Run a pure (effect-free) Python expression in a world. -/
def liftE (r : Except PyErr α) (w : World) : PyResult α :=
  match r with
  | .ok a => .ok a w
  | .error e => .err e w

/-- The exception of a result, if any. -/
def PyResult.errOf : PyResult α → Option PyErr
  | .ok _ _ => none
  | .err e _ => some e

/-- The value of a result, if no exception was raised. -/
def PyResult.valOf : PyResult α → Option α
  | .ok a _ => some a
  | .err _ _ => none

/-- The world a result leaves behind. -/
def PyResult.world : PyResult α → World
  | .ok _ w => w
  | .err _ w => w

/-- File creation (`open(path, "wb")` creates or truncates). -/
def fsAdd (fs : List (List Char)) (p : List Char) : List (List Char) :=
  if p ∈ fs then fs else fs ++ [p]

/-- File deletion (`os.remove`; removing an absent path is the
`FileNotFoundError` case, handled at each call site). -/
def fsDel (fs : List (List Char)) (p : List Char) : List (List Char) :=
  fs.erase p

/-- A Python variable that holds either one path or a list of paths
(`output_file` in `download_photos` is dynamically either). -/
inductive PyPath where
  | str (p : List Char)
  | strList (ps : List (List Char))

/-- Python `isinstance(v, (int, float))` for `os.utime` and
`datetime.fromtimestamp` arguments (bools are ints in Python). -/
def numericJ (v : JVal) : Bool :=
  match v with
  | .num _ => true
  | .bool _ => true
  | _ => false

/-- A caught extraction: `None` when the except clause fired. -/
def optVal (o : Option JVal) : JVal :=
  match o with
  | none => .null
  | some v => v

/-- A mirror entry handed to `requests`/`download_data` must be a
string (anything else would make `requests` raise; modelled as
`TypeError`). -/
def asStr (v : JVal) : Except PyErr (List Char) :=
  match v with
  | .str s => .ok s
  | _ => .error .typeError

-- ---------------------------------------------------------------------------
-- get_api_data / the resolver loop of download_media (lines 183-201)
-- ---------------------------------------------------------------------------

/-- `get_api_data`: one request to endpoint `index` of `API_LIST`
(the request URL is determined by `media_id` and `index`; the trace
records the endpoint index).  Non-200 status and undecodable bodies
yield `None`. -/
def get_api_data (media_id : List Char) (index : Nat) (w : World) :
    PyResult (Option JVal) :=
  let _ := media_id
  let w := {w with apiCalls := w.apiCalls ++ [index]}
  let r := w.api index
  if r.status ≠ 200 then .ok none w
  else
    match r.body with
    | none => .ok none w
    | some v => .ok (some v) w

/-- The identity check the resolver loop runs on each attempt:
`data["aweme_list"][0]["aweme_id"] != media_id` under
`except (TypeError, AttributeError, IndexError)`; subscripting the
`None` of a failed `get_api_data` raises `TypeError`, which that clause
catches.  `KeyError` (absent key) is NOT caught and propagates. -/
def resolve_verify (d : Option JVal) (media_id : List Char) (w : World) :
    PyResult (Option JVal) :=
  let firstId : Except PyErr JVal :=
    match d with
    | none => .error .typeError
    | some v =>
      (jSub v "aweme_list".toList).bind fun a =>
        (jIdx a 0).bind fun r0 => jSub r0 "aweme_id".toList
  match catchTAI firstId with
  | .error e => .err e w
  | .ok none => .ok none w
  | .ok (some idv) => .ok (if jEqStr idv media_id then d else none) w

/-- The `while data is None and i <= i_max` loop over the remaining
endpoint indices. -/
def resolve_go (media_id : List Char) : List Nat → World → PyResult (Option JVal)
  | [], w => .ok none w
  | i :: rest, w =>
    (get_api_data media_id i w).andThen fun d w1 =>
      (resolve_verify d media_id w1).andThen fun d2 w2 =>
        match d2 with
        | some v => .ok (some v) w2
        | none => resolve_go media_id rest w2

/-- The resolver loop of `download_media`: `API_LIST` has three
endpoints, tried in order `0, 1, 2`. -/
def resolve_loop (media_id : List Char) (w : World) : PyResult (Option JVal) :=
  resolve_go media_id [0, 1, 2] w

-- ---------------------------------------------------------------------------
-- download_data (lines 298-354)
-- ---------------------------------------------------------------------------

/-- `download_data`: GET `url`, fail on non-200 without touching the
filesystem; otherwise create the file (on Windows targets the source
prefixes the encoded path with `\\?\`, an access-mode marker for the
same file — the filesystem is keyed by the unprefixed path; `os.makedirs`
only creates directories, which are not tracked).  A failing `open`
(UnicodeEncodeError/PermissionError) removes any file at the path
(`FileNotFoundError` passed) and calls `sys.exit(1)`.  An exception
while streaming chunks closes everything, removes the partial file and
returns `False`. -/
def download_data (url output_file : List Char) (w : World) : PyResult Bool :=
  let w := {w with dlCalls := w.dlCalls ++ [url]}
  let r := w.dl url
  if r.status ≠ 200 then .ok false w
  else
    if w.openOk output_file then
      let w := {w with fs := fsAdd w.fs output_file}
      if r.streamOk then .ok true w
      else .ok false {w with fs := fsDel w.fs output_file}
    else .err .sysExit {w with fs := fsDel w.fs output_file}

-- ---------------------------------------------------------------------------
-- restore_modtime / add_tags_video / add_tags_photo
-- ---------------------------------------------------------------------------

/-- `restore_modtime`: skip when `mod_time != 0` is false; otherwise
`os.utime(file, (mod_time, mod_time))` — `TypeError` for non-numeric
times or a list-valued `file`, `FileNotFoundError` for an absent path;
a `PermissionError` would be caught and logged (no-op here). -/
def restore_modtime (file : PyPath) (mod_time : JVal) (w : World) :
    PyResult Unit :=
  if pyNeZero mod_time then
    if numericJ mod_time then
      match file with
      | .str p => if p ∈ w.fs then .ok () w else .err .fileNotFound w
      | .strList _ => .err .typeError w
    else .err .typeError w
  else .ok () w

/-- `add_tags_video`: build the metadata arguments (the `date` entry
calls `datetime.fromtimestamp(patterns[mod_time])`, a `TypeError` for a
non-numeric value), then run ffmpeg into a `-temp` file.  On success the
original is replaced by the temp file; on failure the temp file is
removed if present (`FileNotFoundError` passed). -/
def add_tags_video (output_file ffmpeg_path : List Char) (w : World) :
    PyResult Unit :=
  let _ := ffmpeg_path
  let ne := splitext output_file
  let temp_output_file := ne.1 ++ "-temp".toList ++ ne.2
  if pyNeZero w.patterns.mod_time ∧ ¬numericJ w.patterns.mod_time then
    .err .typeError w
  else
    if w.ffmpegOk then
      let fs1 := fsAdd w.fs temp_output_file
      if output_file ∈ fs1 then
        .ok () {w with
          fs := fsAdd (fsDel (fsDel fs1 output_file) temp_output_file)
            output_file}
      else .err .fileNotFound {w with fs := fs1}
    else .ok () {w with fs := fsDel w.fs temp_output_file}

/-- `add_tags_photo`: `os.path.splitext` of a list-valued argument
raises `TypeError` (the multi-image branch of `download_photos` passes
the whole filename list).  Otherwise
`datetime.fromtimestamp(patterns[mod_time], UTC)` runs first
(`TypeError` on a non-numeric value such as `None`), the file is renamed
to `-temp`, re-read through the `exif` collaborator (modelled as
succeeding), rewritten in place, and the temp file removed. -/
def add_tags_photo (output_file : PyPath) (w : World) : PyResult Unit :=
  match output_file with
  | .strList _ => .err .typeError w
  | .str p =>
    let ne := splitext p
    let tmp_file := ne.1 ++ "-temp".toList ++ ne.2
    if ¬numericJ w.patterns.mod_time then .err .typeError w
    else
      if p ∈ w.fs then
        let fs1 := fsAdd (fsDel w.fs p) tmp_file
        .ok () {w with fs := fsDel (fsAdd fs1 p) tmp_file}
      else .err .fileNotFound w

-- ---------------------------------------------------------------------------
-- download_video (lines 275-295) and the video mirror loop (lines 209-211)
-- ---------------------------------------------------------------------------

/-- The destination path `download_video` downloads to: the rendered
output name made absolute, with the `.mp4` extension forced and an
existing destination padded (lines 279-286). -/
def video_target (w : World) (output_name : List Char) :
    Except PyErr (List Char) :=
  (get_output_name w.platform w.patterns output_name []).bind fun rendered =>
    let of0 := abspath w.cwd rendered
    let of1 :=
      if endsWithStr ".mp4".toList (toLowerStr of0) then of0
      else of0 ++ ".mp4".toList
    .ok (if of1 ∈ w.fs then pad_filename w.fs of1 else of1)

/-- `download_video`: render the output name, force the `.mp4`
extension, pad an existing destination, stream the download, and on
success tag (when an ffmpeg path is configured) and restore the
modification time. -/
def download_video (url output_name : List Char) (mod_time : JVal)
    (ffmpeg_path : Option (List Char)) (w : World) : PyResult Bool :=
  (liftE (video_target w output_name) w).andThen fun of2 w0 =>
  (download_data url of2 w0).andThen fun success w1 =>
    if success then
      (match ffmpeg_path with
       | some fp => add_tags_video of2 fp w1
       | none => .ok () w1).andThen fun _ w2 =>
        (restore_modtime (.str of2) mod_time w2).andThen fun _ w3 =>
          .ok true w3
    else .ok false w1

/-- The `for vid_url in data[...]["url_list"]` loop of `download_media`:
try each mirror with `download_video` until one succeeds
(`patterns.get(PATTERN_MOD_TIME, 0)` is re-read from the global at each
call). -/
def video_loop (urls : List JVal) (output_name : List Char)
    (ffmpeg_path : Option (List Char)) (w : World) : PyResult Bool :=
  match urls with
  | [] => .ok false w
  | u :: rest =>
    (liftE (asStr u) w).andThen fun us w1 =>
      (download_video us output_name w1.patterns.mod_time ffmpeg_path w1).andThen
        fun b w2 =>
          if b then .ok true w2 else video_loop rest output_name ffmpeg_path w2

-- ---------------------------------------------------------------------------
-- setup_patterns / setup_pattern_image (lines 441-502)
-- ---------------------------------------------------------------------------

/-- `setup_patterns`: nine field extractions, each individually wrapped
in `except (TypeError, AttributeError, IndexError)` (an absent key's
`KeyError` is not caught and propagates), followed by the assignment
block, whose `.strip()` calls run OUTSIDE any try (an extraction that
yielded `None` makes the corresponding `.strip()` raise
`AttributeError`).  Assignments happen one by one, in source order. -/
def setup_patterns (data : JVal) (url : List Char) (w : World) :
    PyResult Unit :=
  (liftE (catchTAI (jSub data "desc".toList)) w).andThen fun descO w =>
  (liftE (catchTAI (jSub data "aweme_id".toList)) w).andThen fun midO w =>
  (liftE (catchTAI (jSub data "create_time".toList)) w).andThen fun modO w =>
  (liftE (catchTAI ((jSub data "author".toList).bind
      fun a => jSub a "uid".toList)) w).andThen fun aidO w =>
  (liftE (catchTAI ((jSub data "author".toList).bind
      fun a => jSub a "unique_id".toList)) w).andThen fun anameO w =>
  (liftE (catchTAI ((jSub data "video".toList).bind
      fun v => (jSub v "play_addr".toList).bind
        fun pa => jSub pa "height".toList)) w).andThen fun heightO w =>
  (liftE (catchTAI ((jSub data "video".toList).bind
      fun v => (jSub v "play_addr".toList).bind
        fun pa => jSub pa "width".toList)) w).andThen fun widthO w =>
  (liftE (catchTAI (jSub data "region".toList)) w).andThen fun countryO w =>
  (liftE (pyStripMethod (optVal descO)) w).andThen fun descS w =>
  let w := {w with patterns := {w.patterns with description := descS}}
  let w := {w with patterns := {w.patterns with mod_time := optVal modO}}
  (liftE (pyStripMethod (optVal aidO)) w).andThen fun aidS w =>
  let w := {w with patterns := {w.patterns with author_id := aidS}}
  (liftE (pyStripMethod (optVal anameO)) w).andThen fun anameS w =>
  let w := {w with patterns := {w.patterns with author_name := anameS}}
  let w := {w with patterns := {w.patterns with
    media_height := optVal heightO, media_width := optVal widthO}}
  (liftE (pyStripMethod (optVal midO)) w).andThen fun midS w =>
  let w := {w with patterns := {w.patterns with media_id := midS}}
  (liftE (pyStripMethod (optVal countryO)) w).andThen fun countryS w =>
  let w := {w with patterns := {w.patterns with country_code := countryS}}
  .ok () {w with patterns := {w.patterns with url := .str url}}

/-- `setup_pattern_image`: per-image height/width, each under the same
except clause (again `KeyError` propagates). -/
def setup_pattern_image (data : JVal) (w : World) : PyResult Unit :=
  (liftE (catchTAI ((jSub data "owner_watermark_image".toList).bind
      fun o => jSub o "height".toList)) w).andThen fun hO w =>
  (liftE (catchTAI ((jSub data "owner_watermark_image".toList).bind
      fun o => jSub o "width".toList)) w).andThen fun wO w =>
  .ok () {w with patterns := {w.patterns with
    media_height := optVal hO, media_width := optVal wO}}

-- ---------------------------------------------------------------------------
-- download_photos (lines 357-426)
-- ---------------------------------------------------------------------------

/-- The per-image `for url in reversed(...)` loop of the single-image
branch: download to `output_file`, on success tag (the single path) and
restore the modification time, then break. -/
def photo_mirror_loop (urls : List JVal) (output_file : List Char)
    (mod_time : JVal) (w : World) : PyResult Bool :=
  match urls with
  | [] => .ok false w
  | u :: rest =>
    (liftE (asStr u) w).andThen fun us w1 =>
      (download_data us output_file w1).andThen fun success w2 =>
        if success then
          (add_tags_photo (.str output_file) w2).andThen fun _ w3 =>
            (restore_modtime (.str output_file) mod_time w3).andThen fun _ w4 =>
              .ok true w4
        else photo_mirror_loop rest output_file mod_time w2

/-- The per-image mirror loop of the multi-image branch.  On the first
successful download the source calls `add_tags_photo(output_file)` with
the whole FILENAME LIST (not `output_file[idx]`), which raises
`TypeError` inside `os.path.splitext`. -/
def photo_multi_mirror (urls : List JVal) (file : List Char)
    (all_files : List (List Char)) (mod_time : JVal) (w : World) :
    PyResult Bool :=
  match urls with
  | [] => .ok false w
  | u :: rest =>
    (liftE (asStr u) w).andThen fun us w1 =>
      (download_data us file w1).andThen fun success w2 =>
        if success then
          (add_tags_photo (.strList all_files) w2).andThen fun _ w3 =>
            (restore_modtime (.strList all_files) mod_time w3).andThen fun _ w4 =>
              .ok true w4
        else photo_multi_mirror rest file all_files mod_time w2

/-- The `for idx, image in enumerate(data)` loop of the multi-image
branch, collecting `results`. -/
def photo_multi_loop (pairs : List (JVal × List Char))
    (all_files : List (List Char)) (mod_time : JVal) (w : World) :
    PyResult (List Bool) :=
  match pairs with
  | [] => .ok [] w
  | (image, file) :: rest =>
    (liftE ((jSub image "owner_watermark_image".toList).bind
        fun o => jSub o "url_list".toList) w).andThen fun ulJ w1 =>
      (liftE (jIter ulJ) w1).andThen fun urls w2 =>
        (photo_multi_mirror urls.reverse file all_files mod_time w2).andThen
          fun s w3 =>
            (photo_multi_loop rest all_files mod_time w3).andThen fun ss w4 =>
              .ok (s :: ss) w4

/-- The `for i in range(1, image_number + 1)` loop building the
per-image filenames of the multi-image branch: each iteration updates
the per-image dimension patterns, re-renders the base name (whose
height/width placeholders were left in by the first pass) and appends
the zero-padded index before the extension. -/
def photo_build_names (imgs : List JVal) (orig_output_file : List Char)
    (pad_number i : Nat) (w : World) : PyResult (List (List Char)) :=
  match imgs with
  | [] => .ok [] w
  | img :: rest =>
    (setup_pattern_image img w).andThen fun _ w1 =>
      let ne := splitext orig_output_file
      (liftE (get_output_name w1.platform w1.patterns ne.1 []) w1).andThen
        fun name w1a =>
          let file := name ++ ('_' :: zfill pad_number (natStr i)) ++ ne.2
          (photo_build_names rest orig_output_file pad_number
            (i + 1) w1a).andThen fun files w2 => .ok (file :: files) w2

/-- `download_photos`. -/
def download_photos (data : List JVal) (output_name : List Char)
    (media_id : List Char) (mod_time : JVal)
    (ffmpeg_path : Option (List Char)) (w : World) : PyResult Bool :=
  let _ := media_id
  let _ := ffmpeg_path
  let image_number := data.length
  if image_number = 0 then .ok false w
  else
    let ne := splitext output_name
    let output_name :=
      if ne.2 = [] then output_name ++ ".jpg".toList
      else if toLowerStr ne.2 ≠ ".jpg".toList then ne.1 ++ ".jpg".toList
      else output_name
    match data with
    | [img] =>
      (setup_pattern_image img w).andThen fun _ w1 =>
        (liftE (get_output_name w1.platform w1.patterns output_name [])
            w1).andThen fun rendered w1a =>
          let of0 := abspath w1a.cwd rendered
          let of1 := if of0 ∈ w1a.fs then pad_filename w1a.fs of0 else of0
          (liftE ((jSub img "owner_watermark_image".toList).bind
              fun o => jSub o "url_list".toList) w1a).andThen fun ulJ w2 =>
            (liftE (jIter ulJ) w2).andThen fun urls w3 =>
              photo_mirror_loop urls.reverse of1 mod_time w3
    | imgs =>
      (liftE (get_output_name w.platform w.patterns output_name
          [PATTERN_MEDIA_HEIGHT, PATTERN_MEDIA_WIDTH]) w).andThen
        fun rendered w0 =>
      let of0 := abspath w0.cwd rendered
      let pad_number := max (natStr image_number).length 2
      (photo_build_names imgs of0 pad_number 1 w0).andThen fun files w1 =>
        let files2 := files.map fun f =>
          if f ∈ w1.fs then pad_filename w1.fs f else f
        (photo_multi_loop (imgs.zip files2) files2 mod_time w1).andThen
          fun results w2 => .ok (results.all id) w2

-- ---------------------------------------------------------------------------
-- download_media (lines 158-213)
-- ---------------------------------------------------------------------------

/-- The twin `try: re.search(...).group(1)` blocks of `download_media`:
a failed search raises `AttributeError` (caught, falling through video →
photo → `return False, None, False`); a match with an absent group 1
binds `media_id = None` without raising. -/
def extract_media_ref (url : List Char) : Option (JVal × Bool) :=
  match searchId "video".toList url with
  | some g1 => some (match g1 with | some s => .str s | none => .null, false)
  | none =>
    match searchId "photo".toList url with
    | some g1 => some (match g1 with | some s => .str s | none => .null, true)
    | none => none

/-- `data["aweme_list"][0]` (uncaught at lines 199-209). -/
def firstRecord (data : JVal) : Except PyErr JVal :=
  (jSub data "aweme_list".toList).bind fun a => jIdx a 0

/-- Lines 183-213 of `download_media`, after the archive check: run the
resolver loop, re-verify the record's id, extract the descriptor fields
and download the photo gallery or the video mirrors. -/
def resolve_and_download (midS : List Char) (is_photo : Bool)
    (url output_name : List Char) (ffmpeg_path : Option (List Char))
    (w : World) : PyResult (Bool × JVal × Bool) :=
  (resolve_loop midS w).andThen fun dataO w1 =>
          match dataO with
          | none => .ok (false, .str midS, false) w1
          | some data =>
            (liftE ((firstRecord data).bind
                fun r0 => jSub r0 "aweme_id".toList) w1).andThen fun idv w2 =>
              if ¬jEqStr idv midS then .ok (false, .str midS, false) w2
              else
                (liftE (firstRecord data) w2).andThen fun rec0 w3 =>
                  (setup_patterns rec0 url w3).andThen fun _ w4 =>
                    if is_photo then
                      (liftE ((jSub rec0 "image_post_info".toList).bind
                          fun ipi => jSub ipi "images".toList) w4).andThen
                        fun imgsJ w5 =>
                          (liftE (jIter imgsJ) w5).andThen fun imgs w6 =>
                            (download_photos imgs output_name midS
                                w6.patterns.mod_time ffmpeg_path w6).andThen
                              fun b w7 => .ok (b, .str midS, false) w7
                    else
                      (liftE ((jSub rec0 "video".toList).bind
                          fun v => (jSub v "play_addr".toList).bind
                            fun pa => jSub pa "url_list".toList) w4).andThen
                        fun ulJ w5 =>
                          (liftE (jIter ulJ) w5).andThen fun urls w6 =>
                            (video_loop urls output_name ffmpeg_path w6).andThen
                              fun b w7 => .ok (b, .str midS, false) w7

/-- `download_media`: reset the `patterns` global, parse the media id,
skip when the archive already holds `"tiktok <id>"`, and otherwise
resolve and download.  The result triple is
`(download_success, media_id, already_downloaded)`. -/
def download_media (url output_name : List Char) (archive_given : Bool)
    (ffmpeg_path : Option (List Char)) (w : World) :
    PyResult (Bool × JVal × Bool) :=
  let w := {w with patterns := PATTERNS_TEMPLATE}
  match extract_media_ref url with
  | none => .ok (false, .null, false) w
  | some (mid, is_photo) =>
    let downloaded_ids :=
      if archive_given then
        match w.archive with
        | some c => splitlines c
        | none => []
      else []
    match mid with
    | .str midS =>
      if ("tiktok ".toList ++ midS) ∈ downloaded_ids then .ok (false, mid, true) w
      else resolve_and_download midS is_photo url output_name ffmpeg_path w
    | _ => .err .typeError w
      -- `"tiktok " + media_id` with `media_id = None` raises TypeError

-- ---------------------------------------------------------------------------
-- get_already_downloaded_ids / add_to_archive / sanitize_url / main loop
-- ---------------------------------------------------------------------------

/-- `get_already_downloaded_ids`: every line of the archive file. -/
def get_already_downloaded_ids (content : List Char) : List (List Char) :=
  splitlines content

/-- `add_to_archive`: append `"tiktok <id>\n"` in append mode (an absent
file is created empty first; an `OSError` from the write would be caught
and logged — modelled as the write succeeding). -/
def add_to_archive (media_id : JVal) (w : World) : PyResult Unit :=
  match media_id with
  | .str s =>
    let content := (w.archive.getD []) ++ "tiktok ".toList ++ s ++ ['\n']
    .ok () {w with archive := some content}
  | _ => .err .typeError w

/-- `sanitize_url`: search REGEX_TIKTOK_URL case-insensitively; no match
returns `None`.  On a match, `url.group(1) + url.group(2)` is returned —
when group 2 did not participate, `group(2)` is `None` (not an
`IndexError`!), so the concatenation raises an uncaught `TypeError`. -/
def sanitize_url (url : List Char) : Except PyErr (Option (List Char)) :=
  match searchTiktok url with
  | none => .ok none
  | some (g1, some g2) => .ok (some (g1 ++ g2))
  | some (_, none) => .error .typeError

/-- What `main`'s per-URL loop body reports for one input. -/
inductive Outcome where
  | skipped
  | already (mid : JVal)
  | success (mid : JVal)
  | failed (mid : JVal)

/-- One iteration of `main`'s `for url in url_list` loop (inputs are
stripped when `url_list` is built): skip unparseable URLs, report
already-downloaded ones, record successful downloads in the archive. -/
def handle_url (url output_name : List Char) (archive_given : Bool)
    (ffmpeg_path : Option (List Char)) (w : World) : PyResult Outcome :=
  match sanitize_url (pyStrip url) with
  | .error e => .err e w
  | .ok none => .ok .skipped w
  | .ok (some su) =>
    (download_media su output_name archive_given ffmpeg_path w).andThen
      fun r w1 =>
        if r.2.2 then .ok (.already r.2.1) w1
        else if r.1 then
          if archive_given then
            (add_to_archive r.2.1 w1).andThen fun _ w2 => .ok (.success r.2.1) w2
          else .ok (.success r.2.1) w1
        else .ok (.failed r.2.1) w1

/-- `main`'s loop over the whole input list; an uncaught exception from
any item aborts the remaining items (the process dies). -/
def main_loop (urls : List (List Char)) (output_name : List Char)
    (archive_given : Bool) (ffmpeg_path : Option (List Char)) (w : World) :
    PyResult (List Outcome) :=
  match urls with
  | [] => .ok [] w
  | u :: rest =>
    (handle_url u output_name archive_given ffmpeg_path w).andThen fun o w1 =>
      (main_loop rest output_name archive_given ffmpeg_path w1).andThen
        fun os w2 => .ok (o :: os) w2

-- ===========================================================================
-- Lemmas about decimal rendering and pad_filename (claim C7)
-- ===========================================================================

theorem digitVal_digitChar : ∀ n < 10, digitVal (Nat.digitChar n) = n := by
  decide

theorem foldl_natStrGo (fuel : Nat) :
    ∀ n a : Nat, n < fuel →
      (natStrGo fuel n).foldl (fun a c => 10 * a + digitVal c) a
        = a * 10 ^ (natStrGo fuel n).length + n := by
  induction fuel with
  | zero => intro n a h; omega
  | succ f ih =>
    intro n a h
    by_cases h10 : n < 10
    · simp [natStrGo, h10, digitVal_digitChar n h10]; ring
    · have hdiv : n / 10 < f := by omega
      have hrec := ih (n / 10) a hdiv
      have hmod : n % 10 < 10 := Nat.mod_lt _ (by omega)
      simp [natStrGo, h10, List.foldl_append, hrec, digitVal_digitChar _ hmod,
        pow_succ]
      have := Nat.div_add_mod n 10
      ring_nf
      omega

theorem strVal_natStr (n : Nat) : strVal (natStr n) = n := by
  simpa [strVal, natStr] using foldl_natStrGo (n + 1) n 0 (by omega)

theorem foldl_zeros (k : Nat) :
    (List.replicate k '0').foldl (fun a c => 10 * a + digitVal c) 0 = 0 := by
  induction k with
  | zero => rfl
  | succ m ih => simpa [List.replicate_succ, digitVal] using ih

theorem strVal_zfill (w : Nat) (s : List Char) :
    strVal (zfill w s) = strVal s := by
  simp [zfill, strVal, List.foldl_append, foldl_zeros]

theorem zfill_natStr_inj {a b : Nat}
    (h : zfill 2 (natStr a) = zfill 2 (natStr b)) : a = b := by
  have := congrArg strVal h
  simpa [strVal_zfill, strVal_natStr] using this

theorem padCandidate_inj {orig : List Char} {a b : Nat}
    (h : padCandidate orig a = padCandidate orig b) : a = b := by
  unfold padCandidate at h
  have h1 := List.append_cancel_right h
  have h2 := List.append_cancel_left h1
  exact zfill_natStr_inj (List.cons.injEq .. ▸ h2).2

theorem exists_free_candidate (fs : List (List Char)) (orig : List Char) :
    ∃ j, 1 ≤ j ∧ j ≤ fs.length + 1 ∧ padCandidate orig j ∉ fs := by
  by_contra hc
  push_neg at hc
  have hsub : ((List.range (fs.length + 1)).map
      fun i => padCandidate orig (i + 1)) ⊆ fs := by
    intro x hx
    obtain ⟨i, hi, rfl⟩ := List.mem_map.mp hx
    have := List.mem_range.mp hi
    exact hc (i + 1) (by omega) (by omega)
  have hnd : ((List.range (fs.length + 1)).map
      fun i => padCandidate orig (i + 1)).Nodup := by
    refine List.Nodup.map ?_ (List.nodup_range _)
    intro a b hab
    have := padCandidate_inj hab
    omega
  have hle := (List.subperm_of_subset hnd hsub).length_le
  simp at hle

theorem padLoop_exit (fs : List (List Char)) (orig cur : List Char)
    (k fuel : Nat) (h : cur ∉ fs) : padLoop fs orig cur k fuel = cur := by
  cases fuel <;> simp [padLoop, h]

theorem padLoop_spec (fs : List (List Char)) (orig : List Char) :
    ∀ (fuel k : Nat) (cur : List Char), cur ∈ fs →
      (∃ j, k ≤ j ∧ j + 1 ≤ k + fuel ∧ padCandidate orig j ∉ fs) →
      (∀ j, 1 ≤ j → j < k → padCandidate orig j ∈ fs) →
      ∃ m, k ≤ m ∧ padCandidate orig m ∉ fs ∧
        (∀ j, 1 ≤ j → j < m → padCandidate orig j ∈ fs) ∧
        padLoop fs orig cur k fuel = padCandidate orig m := by
  intro fuel
  induction fuel with
  | zero =>
    intro k cur _ hex _
    obtain ⟨j, hj1, hj2, _⟩ := hex
    omega
  | succ f ih =>
    intro k cur hcur hex hprev
    have hstep : padLoop fs orig cur k (f + 1)
        = padLoop fs orig (padCandidate orig k) (k + 1) f := by
      simp [padLoop, hcur]
    rw [hstep]
    by_cases hk : padCandidate orig k ∈ fs
    · obtain ⟨j, hj1, hj2, hjf⟩ := hex
      have hjk : j ≠ k := fun e => hjf (e ▸ hk)
      have hprev2 : ∀ j, 1 ≤ j → j < k + 1 → padCandidate orig j ∈ fs := by
        intro j h1 h2
        by_cases hlt : j < k
        · exact hprev j h1 hlt
        · have : j = k := by omega
          exact this ▸ hk
      obtain ⟨m, hm1, hm2, hm3, hm4⟩ :=
        ih (k + 1) _ hk ⟨j, by omega, by omega, hjf⟩ hprev2
      exact ⟨m, by omega, hm2, hm3, hm4⟩
    · exact ⟨k, Nat.le_refl k, hk, hprev, padLoop_exit _ _ _ _ _ hk⟩

theorem pad_filename_spec (fs : List (List Char)) (orig : List Char)
    (hmem : orig ∈ fs) :
    pad_filename fs orig ∉ fs ∧
      ∃ m, 1 ≤ m ∧ pad_filename fs orig = padCandidate orig m ∧
        ∀ j, 1 ≤ j → j < m → padCandidate orig j ∈ fs := by
  obtain ⟨j, hj1, hj2, hjf⟩ := exists_free_candidate fs orig
  obtain ⟨m, hm1, hm2, hm3, hm4⟩ :=
    padLoop_spec fs orig (fs.length + 2) 1 orig hmem
      ⟨j, hj1, by omega, hjf⟩ (by omega)
  unfold pad_filename
  exact ⟨hm4 ▸ hm2, m, hm1, hm4, hm3⟩

-- ===========================================================================
-- Lemmas about sanitize_pattern (claim C6)
-- ===========================================================================

theorem not_mem_replace_self {c d : Char} (h : d ≠ c) (s : List Char) :
    c ∉ pyReplaceChar c d s := by
  simp only [pyReplaceChar, List.mem_map, not_exists]
  intro x
  by_cases hxc : x = c <;> simp [hxc, h]

theorem not_mem_replace_other {a c d : Char} {s : List Char}
    (hs : c ∉ s) (h : d ≠ c) : c ∉ pyReplaceChar a d s := by
  simp only [pyReplaceChar, List.mem_map, not_exists]
  intro x
  by_cases hxa : x = a <;> simp [hxa, h]
  · intro hx
    exact fun e => hs (e ▸ hx)

theorem sanitize_step_keeps {c : Char} {s : List Char} (hs : c ∉ s)
    (cd : Char × Char) (h2 : cd.2 ≠ c) :
    c ∉ (if cd.1 ∈ s then pyReplaceChar cd.1 cd.2 s else s) := by
  by_cases hmem : cd.1 ∈ s <;> simp [hmem]
  · exact not_mem_replace_other hs h2
  · exact hs

theorem sanitize_foldl_keeps (c : Char) :
    ∀ (l : List (Char × Char)) (s : List Char), c ∉ s →
      (∀ p ∈ l, p.2 ≠ c) →
      c ∉ l.foldl
        (fun s cd => if cd.1 ∈ s then pyReplaceChar cd.1 cd.2 s else s) s := by
  intro l
  induction l with
  | nil => intro s hs _; simpa using hs
  | cons p t ih =>
    intro s hs hall
    simp only [List.foldl_cons]
    exact ih _ (sanitize_step_keeps hs p (hall p (by simp)))
      fun q hq => hall q (by simp [hq])

/-- No replacement character of any platform's mapping is itself one of
that platform's illegal characters. -/
theorem illegal_replacements_fresh (pf : Platform) :
    ∀ p ∈ illegal_characters pf, ∀ q ∈ illegal_characters pf, p.2 ≠ q.1 := by
  cases pf <;> decide

-- ===========================================================================
-- Lemmas about splitlines (claim C10)
-- ===========================================================================

theorem splitlinesAux_lf (rest acc : List Char) :
    splitlinesAux ('\n' :: rest) acc = acc :: splitlinesAux rest [] := rfl

theorem splitlinesAux_crlf (rest acc : List Char) :
    splitlinesAux ('\r' :: '\n' :: rest) acc = acc :: splitlinesAux rest [] :=
  rfl

theorem splitlinesAux_cr_nil (acc : List Char) :
    splitlinesAux ['\r'] acc = [acc] := rfl

theorem splitlinesAux_cr_cons {c : Char} (h : c ≠ '\n') (rest acc : List Char) :
    splitlinesAux ('\r' :: c :: rest) acc
      = acc :: splitlinesAux (c :: rest) [] :=
  splitlinesAux.eq_3 acc (c :: rest)
    (fun r1 hr => by simp at hr; exact h hr.1)

theorem splitlinesAux_cons_nonterm {c : Char} (h : ¬isLineTerm c = true)
    (rest acc : List Char) :
    splitlinesAux (c :: rest) acc = splitlinesAux rest (acc ++ [c]) := by
  simp only [isLineTerm, Bool.or_eq_true, decide_eq_true_eq, not_or] at h
  exact splitlinesAux.eq_5 acc c rest (fun _ hc _ => absurd hc h.2)
    (fun hc => absurd hc h.2) (fun hc => absurd hc h.1)

/-- Splitting a string whose first part ends in a newline splits each
part independently. -/
theorem splitlinesAux_split (z : List Char) :
    ∀ (n : Nat) (s : List Char), s.length ≤ n → ∀ acc,
      splitlinesAux (s ++ '\n' :: z) acc
        = splitlinesAux (s ++ ['\n']) acc ++ splitlinesAux z [] := by
  intro n
  induction n with
  | zero =>
    intro s hlen acc
    have hs : s = [] := by cases s <;> simp_all
    subst hs
    simp [splitlinesAux_lf, splitlinesAux]
  | succ m ih =>
    intro s hlen acc
    match s with
    | [] => simp [splitlinesAux_lf, splitlinesAux]
    | c :: rest =>
      by_cases hn : c = '\n'
      · subst hn
        simp only [List.cons_append, splitlinesAux_lf]
        have := ih rest (by simpa using hlen) []
        rw [this]
      · by_cases hr : c = '\r'
        · subst hr
          match rest with
          | [] =>
            simp [splitlinesAux_crlf, splitlinesAux_cr_nil, splitlinesAux]
          | r :: t =>
            by_cases hrn : r = '\n'
            · subst hrn
              simp only [List.cons_append, splitlinesAux_crlf]
              have := ih t (by simp at hlen; omega) []
              rw [this]
            · have h1 : splitlinesAux ('\r' :: r :: (t ++ '\n' :: z)) acc
                  = acc :: splitlinesAux (r :: (t ++ '\n' :: z)) [] :=
                splitlinesAux_cr_cons hrn _ _
              have h2 : splitlinesAux ('\r' :: r :: (t ++ ['\n'])) acc
                  = acc :: splitlinesAux (r :: (t ++ ['\n'])) [] :=
                splitlinesAux_cr_cons hrn _ _
              have h3 := ih (r :: t) (by simpa using hlen) []
              simp only [List.cons_append] at h3 ⊢
              rw [h1, h2, h3]
              simp
        · have hterm : ¬isLineTerm c = true := by simp [isLineTerm, hn, hr]
          have h1 := splitlinesAux_cons_nonterm hterm (rest ++ '\n' :: z) acc
          have h2 := splitlinesAux_cons_nonterm hterm (rest ++ ['\n']) acc
          have h3 := ih rest (by simpa using hlen) (acc ++ [c])
          simp only [List.cons_append]
          rw [h1, h2, h3]

theorem splitlines_newline_append (c0 z : List Char) :
    splitlines ((c0 ++ ['\n']) ++ z)
      = splitlines (c0 ++ ['\n']) ++ splitlines z := by
  have := splitlinesAux_split z c0.length c0 (Nat.le_refl _) []
  simpa [splitlines, List.append_assoc] using this

/-- A terminator-free line followed by a newline splits as that single
line. -/
theorem splitlinesAux_clean_line (line : List Char)
    (hl : ∀ ch ∈ line, ¬isLineTerm ch = true) :
    ∀ acc, splitlinesAux (line ++ ['\n']) acc = [acc ++ line] := by
  induction line with
  | nil => intro acc; simp [splitlinesAux_lf, splitlinesAux]
  | cons c cs ih =>
    intro acc
    have hc := hl c (by simp)
    rw [List.cons_append, splitlinesAux_cons_nonterm hc]
    rw [ih (fun ch hch => hl ch (by simp [hch])) (acc ++ [c])]
    simp

theorem splitlines_clean_line (line : List Char)
    (hl : ∀ ch ∈ line, ¬isLineTerm ch = true) :
    splitlines (line ++ ['\n']) = [line] := by
  simpa [splitlines] using splitlinesAux_clean_line line hl []

-- ===========================================================================
-- The already-downloaded flag of download_media's result (claims C2, C10)
-- ===========================================================================

/-- The `already_downloaded` component of `download_media`'s result (a
crashed run reported nothing). -/
def alreadyFlag (r : PyResult (Bool × JVal × Bool)) : Bool :=
  match r with
  | .ok t _ => t.2.2
  | .err _ _ => false

/-- Every return of `download_media` after the archive check carries
`already_downloaded = False`. -/
theorem alreadyFlag_resolve_and_download (media_id : List Char)
    (is_photo : Bool) (url output_name : List Char)
    (ffmpeg_path : Option (List Char)) (w : World) :
    alreadyFlag (resolve_and_download media_id is_photo url output_name
      ffmpeg_path w) = false := by
  unfold resolve_and_download
  cases resolve_loop media_id w with
  | err e w1 => rfl
  | ok dataO w1 =>
    simp only [PyResult.andThen]
    cases dataO with
    | none => rfl
    | some data =>
      dsimp only
      cases liftE ((firstRecord data).bind
          fun r0 => jSub r0 "aweme_id".toList) w1 with
      | err e w2 => rfl
      | ok idv w2 =>
        simp only [PyResult.andThen]
        split
        · rfl
        · cases liftE (firstRecord data) w2 with
          | err e w3 => rfl
          | ok rec0 w3 =>
            simp only [PyResult.andThen]
            cases setup_patterns rec0 url w3 with
            | err e w4 => rfl
            | ok u w4 =>
              simp only [PyResult.andThen]
              split
              · cases liftE ((jSub rec0 "image_post_info".toList).bind
                    fun ipi => jSub ipi "images".toList) w4 with
                | err e w5 => rfl
                | ok imgsJ w5 =>
                  simp only [PyResult.andThen]
                  cases liftE (jIter imgsJ) w5 with
                  | err e w6 => rfl
                  | ok imgs w6 =>
                    simp only [PyResult.andThen]
                    cases download_photos imgs output_name media_id
                        w6.patterns.mod_time ffmpeg_path w6 with
                    | err e w7 => rfl
                    | ok b w7 => rfl
              · cases liftE ((jSub rec0 "video".toList).bind
                    fun v => (jSub v "play_addr".toList).bind
                      fun pa => jSub pa "url_list".toList) w4 with
                | err e w5 => rfl
                | ok ulJ w5 =>
                  simp only [PyResult.andThen]
                  cases liftE (jIter ulJ) w5 with
                  | err e w6 => rfl
                  | ok urls w6 =>
                    simp only [PyResult.andThen]
                    cases video_loop urls output_name ffmpeg_path w6 with
                    | err e w7 => rfl
                    | ok b w7 => rfl

-- ===========================================================================
-- Claim theorems
-- ===========================================================================

/-- C2: an input URL whose parsed media id is already a `"tiktok <id>"`
line of the archive ledger reports the already-downloaded outcome and
performs no API call, no download request, no filesystem change and no
ledger append. -/
theorem claim_archive_skip_no_effects
    (w : World) (url su mid output_name : List Char) (ph : Bool)
    (ffmpeg_path : Option (List Char)) (c : List Char)
    (hsan : sanitize_url (pyStrip url) = .ok (some su))
    (hext : extract_media_ref su = some (.str mid, ph))
    (harch : w.archive = some c)
    (hmem : ("tiktok ".toList ++ mid) ∈ splitlines c) :
    (handle_url url output_name true ffmpeg_path w).valOf
        = some (.already (.str mid)) ∧
    (handle_url url output_name true ffmpeg_path w).world.fs = w.fs ∧
    (handle_url url output_name true ffmpeg_path w).world.apiCalls
        = w.apiCalls ∧
    (handle_url url output_name true ffmpeg_path w).world.dlCalls
        = w.dlCalls ∧
    (handle_url url output_name true ffmpeg_path w).world.archive
        = w.archive := by
  have h1 : handle_url url output_name true ffmpeg_path w
      = .ok (.already (.str mid)) {w with patterns := PATTERNS_TEMPLATE} := by
    unfold handle_url
    rw [hsan]
    dsimp only
    unfold download_media
    rw [hext]
    dsimp only
    have hmem2 : ('t' :: 'i' :: 'k' :: 't' :: 'o' :: 'k' :: ' ' :: mid)
        ∈ splitlines c := hmem
    simp [harch, hmem2, PyResult.andThen]
  rw [h1]
  exact ⟨rfl, rfl, rfl, rfl, rfl⟩

/-- Membership of the freshly created file. -/
theorem mem_fsAdd (fs : List (List Char)) (p : List Char) : p ∈ fsAdd fs p := by
  unfold fsAdd
  by_cases h : p ∈ fs <;> simp [h]

theorem fsAdd_nodup {fs : List (List Char)} (h : fs.Nodup) (p : List Char) :
    (fsAdd fs p).Nodup := by
  unfold fsAdd
  by_cases hp : p ∈ fs <;> simp [hp, List.nodup_append, h]

/-- C3: a non-success transport status fails without touching the
filesystem; an I/O error while streaming removes the partial file, so
the destination is absent from the resulting filesystem. -/
theorem claim_download_data_atomic (w : World)
    (url output_file : List Char) :
    ((w.dl url).status ≠ 200 →
      (download_data url output_file w).valOf = some false ∧
      (download_data url output_file w).world.fs = w.fs) ∧
    ((w.dl url).status = 200 → (w.dl url).streamOk = false →
      w.openOk output_file = true → w.fs.Nodup →
      (download_data url output_file w).valOf = some false ∧
      output_file ∉ (download_data url output_file w).world.fs) := by
  constructor
  · intro hst
    unfold download_data
    dsimp only
    simp [hst]
    exact ⟨rfl, rfl⟩
  · intro hst hstream hopen hnd
    unfold download_data
    dsimp only
    simp only [hst, hstream, hopen, ne_eq, not_true_eq_false, if_false,
      if_true, ite_false, ite_true, Bool.false_eq_true]
    refine ⟨rfl, fun hmem => ?_⟩
    have h2 := ((fsAdd_nodup hnd output_file).mem_erase_iff).mp
      (by simpa [fsDel] using hmem)
    exact absurd rfl h2.1

/-- C6: after sanitization, no raw illegal character of the platform's
mapping remains in the output. -/
theorem claim_sanitize_removes_illegal (pf : Platform) (s : List Char)
    (c : Char) (hc : c ∈ (illegal_characters pf).map Prod.fst) :
    c ∉ sanitize_pattern pf s := by
  obtain ⟨p, hp, hpc⟩ := List.mem_map.mp hc
  obtain ⟨pc, pd⟩ := p
  simp only at hpc
  rw [hpc] at hp
  obtain ⟨l1, l2, hsplit⟩ := List.append_of_mem hp
  have hall := illegal_replacements_fresh pf
  unfold sanitize_pattern
  rw [hsplit, List.foldl_append, List.foldl_cons]
  have hdc : pd ≠ c := by
    have := hall (c, pd) hp (c, pd) hp
    simpa using this
  apply sanitize_foldl_keeps
  · by_cases hmem : c ∈ List.foldl
        (fun s cd => if cd.1 ∈ s then pyReplaceChar cd.1 cd.2 s else s) s l1
    · simp only [if_pos hmem]
      exact not_mem_replace_self hdc _
    · simp only [if_neg hmem]
      exact hmem
  · intro q hq
    have hql : q ∈ illegal_characters pf := by
      rw [hsplit]
      simp [hq]
    have := hall q hql (c, pd) hp
    simpa using this

/-- C7: when the destination already exists, `pad_filename` returns a
path that does not exist, derived from the original by inserting the
first free zero-padded numeric suffix `_01`, `_02`, ... between base
name and extension; `download_video` only ever downloads to a path that
does not exist. -/
theorem claim_pad_filename_collision_free (fs : List (List Char))
    (filename : List Char) (hmem : filename ∈ fs) :
    pad_filename fs filename ∉ fs ∧
    (∃ m, 1 ≤ m ∧ pad_filename fs filename = padCandidate filename m ∧
      ∀ j, 1 ≤ j → j < m → padCandidate filename j ∈ fs) ∧
    (∀ (w : World) (output_name p : List Char),
      video_target w output_name = .ok p → p ∉ w.fs) := by
  refine ⟨(pad_filename_spec fs filename hmem).1,
    (pad_filename_spec fs filename hmem).2, ?_⟩
  intro w output_name p hp
  unfold video_target at hp
  cases hg : get_output_name w.platform w.patterns output_name [] with
  | error e => rw [hg] at hp; simp [Except.bind] at hp
  | ok rendered =>
    rw [hg] at hp
    dsimp only [Except.bind] at hp
    by_cases h : (if endsWithStr ".mp4".toList
          (toLowerStr (abspath w.cwd rendered)) = true then
        abspath w.cwd rendered
      else abspath w.cwd rendered ++ ".mp4".toList) ∈ w.fs
    · rw [if_pos h] at hp
      injection hp with hp
      rw [← hp]
      exact (pad_filename_spec w.fs _ h).1
    · rw [if_neg h] at hp
      injection hp with hp
      rw [← hp]
      exact h

/-- C8: the claim says filename rendering is total for every template
and every field map, falling back to `_` when the substituted result
strips to nothing.  It is not: `re.sub` parses backslash escapes in the
replacement string eagerly (even when the template never mentions the
placeholder), and on linux/darwin/other the sanitizer leaves
backslashes intact, so a description value of `\1` (invalid group
reference), `\q` (bad escape) or a lone trailing `\` makes
`get_output_name` raise `re.error` instead of returning a name.  On
Windows-family platforms the backslash is sanitized to the full-width
look-alike first, so rendering succeeds there; and whenever
substitution does succeed, the empty-result fallback to `_` holds. -/
theorem claim_render_bad_escape_raises :
    get_output_name .linux
        {PATTERNS_TEMPLATE with description := .str "\\1".toList}
        "%description%".toList [] = .error .reError ∧
    get_output_name .linux
        {PATTERNS_TEMPLATE with description := .str "\\q".toList}
        "x".toList [] = .error .reError ∧
    get_output_name .linux
        {PATTERNS_TEMPLATE with description := .str "\\".toList}
        "%description%".toList [] = .error .reError ∧
    get_output_name .win32
        {PATTERNS_TEMPLATE with description := .str "\\1".toList}
        "%description%".toList [] = .ok ['＼', '1'] ∧
    get_output_name .linux PATTERNS_TEMPLATE [] [] = .ok ['_'] :=
  ⟨rfl, rfl, rfl, rfl, rfl⟩

-- ===========================================================================
-- Concrete records and worlds used by witnesses and counterexamples
-- ===========================================================================

/-- A well-formed API record for video id 123 with two mirror URLs. -/
def goodRecord : JVal := .obj [
  ("aweme_id".toList, .str "123".toList),
  ("desc".toList, .str " hello ".toList),
  ("create_time".toList, .num 0),
  ("author".toList, .obj [("uid".toList, .str "42".toList),
                          ("unique_id".toList, .str "user".toList)]),
  ("video".toList, .obj [("play_addr".toList, .obj [
      ("height".toList, .num 1024), ("width".toList, .num 576),
      ("url_list".toList,
        .arr [.str "http://v1".toList, .str "http://v2".toList])])]),
  ("region".toList, .str "US".toList)]

def goodBody : JVal := .obj [("aweme_list".toList, .arr [goodRecord])]

/-- A benign environment: every endpoint serves `goodBody`, every
download succeeds, opening files works. -/
def baseWorld : World := {
  platform := .linux, cwd := "/d".toList, fs := [], archive := none,
  patterns := PATTERNS_TEMPLATE,
  api := fun _ => ⟨200, some goodBody⟩,
  dl := fun _ => ⟨200, true⟩,
  openOk := fun _ => true, ffmpegOk := true, apiCalls := [], dlCalls := [] }

def videoUrl : List Char := "https://www.tiktok.com/@user/video/123".toList

theorem claim_archive_skip_no_effects_witness :
    sanitize_url (pyStrip videoUrl) = .ok (some videoUrl) ∧
    extract_media_ref videoUrl = some (.str "123".toList, false) ∧
    ({baseWorld with archive := some "tiktok 123\n".toList} : World).archive
      = some "tiktok 123\n".toList ∧
    ("tiktok ".toList ++ "123".toList) ∈ splitlines "tiktok 123\n".toList ∧
    ((handle_url videoUrl "%media_id%".toList true none
        {baseWorld with archive := some "tiktok 123\n".toList}).valOf
          = some (.already (.str "123".toList)) ∧
      (handle_url videoUrl "%media_id%".toList true none
        {baseWorld with archive := some "tiktok 123\n".toList}).world.fs
          = ({baseWorld with archive := some "tiktok 123\n".toList} : World).fs ∧
      (handle_url videoUrl "%media_id%".toList true none
        {baseWorld with archive := some "tiktok 123\n".toList}).world.apiCalls
          = ({baseWorld with
              archive := some "tiktok 123\n".toList} : World).apiCalls ∧
      (handle_url videoUrl "%media_id%".toList true none
        {baseWorld with archive := some "tiktok 123\n".toList}).world.dlCalls
          = ({baseWorld with
              archive := some "tiktok 123\n".toList} : World).dlCalls ∧
      (handle_url videoUrl "%media_id%".toList true none
        {baseWorld with archive := some "tiktok 123\n".toList}).world.archive
          = ({baseWorld with
              archive := some "tiktok 123\n".toList} : World).archive) :=
  ⟨rfl, rfl, rfl, by decide,
    claim_archive_skip_no_effects _ videoUrl videoUrl "123".toList
      "%media_id%".toList false none "tiktok 123\n".toList rfl rfl rfl
      (by decide)⟩

def failWorld : World := {baseWorld with dl := fun _ => ⟨404, false⟩}

def midFailWorld : World :=
  {baseWorld with dl := fun _ => ⟨200, false⟩, fs := ["/d/other".toList]}

theorem claim_download_data_atomic_witness :
    ((failWorld.dl "http://v1".toList).status ≠ 200 ∧
      ((download_data "http://v1".toList "/d/a.mp4".toList failWorld).valOf
          = some false ∧
        (download_data "http://v1".toList "/d/a.mp4".toList
          failWorld).world.fs = failWorld.fs)) ∧
    ((midFailWorld.dl "http://v1".toList).status = 200 ∧
      (midFailWorld.dl "http://v1".toList).streamOk = false ∧
      midFailWorld.openOk "/d/a.mp4".toList = true ∧
      midFailWorld.fs.Nodup ∧
      ((download_data "http://v1".toList "/d/a.mp4".toList
          midFailWorld).valOf = some false ∧
        "/d/a.mp4".toList ∉ (download_data "http://v1".toList
          "/d/a.mp4".toList midFailWorld).world.fs)) :=
  ⟨⟨by decide,
      (claim_download_data_atomic failWorld "http://v1".toList
        "/d/a.mp4".toList).1 (by decide)⟩,
    ⟨by decide, by decide, by decide, by decide,
      (claim_download_data_atomic midFailWorld "http://v1".toList
        "/d/a.mp4".toList).2 (by decide) (by decide) (by decide) (by decide)⟩⟩

theorem claim_sanitize_removes_illegal_witness :
    '/' ∈ (illegal_characters .linux).map Prod.fst ∧
    '/' ∉ sanitize_pattern .linux "a/b".toList :=
  ⟨by decide, claim_sanitize_removes_illegal .linux "a/b".toList '/' (by decide)⟩

def crowdedFs : List (List Char) := ["/d/x.mp4".toList, "/d/x_01.mp4".toList]

theorem claim_pad_filename_collision_free_witness :
    "/d/x.mp4".toList ∈ crowdedFs ∧
    (pad_filename crowdedFs "/d/x.mp4".toList ∉ crowdedFs ∧
      (∃ m, 1 ≤ m ∧ pad_filename crowdedFs "/d/x.mp4".toList
          = padCandidate "/d/x.mp4".toList m ∧
        ∀ j, 1 ≤ j → j < m → padCandidate "/d/x.mp4".toList j ∈ crowdedFs) ∧
      (∀ (w : World) (output_name p : List Char),
        video_target w output_name = .ok p → p ∉ w.fs)) :=
  ⟨by decide,
    claim_pad_filename_collision_free crowdedFs "/d/x.mp4".toList (by decide)⟩

-- ===========================================================================
-- Claim C10: archive membership and the append round trip
-- ===========================================================================

/-- An archive file whose existing content lacks a trailing newline. -/
def staleArchiveWorld : World := {baseWorld with archive := some "abc".toList}

/-- C10 counterexample: appending to an archive whose last line lacks a
terminator merges the new record into that line, so the freshly
recorded id does not match on the next run. -/
theorem claim_archive_roundtrip_counterexample :
    (add_to_archive (.str "7".toList) staleArchiveWorld).world.archive
        = some "abctiktok 7\n".toList ∧
    "tiktok 7".toList ∉ splitlines "abctiktok 7\n".toList ∧
    alreadyFlag (download_media "https://www.tiktok.com/@user/video/7".toList
      "%media_id%".toList true none
      {baseWorld with archive := some "abctiktok 7\n".toList}) = false :=
  ⟨rfl, by decide, by decide⟩

/-- The seven characters of the `"tiktok "` tag contain no line
terminator. -/
theorem tiktok_tag_clean : ∀ ch ∈ "tiktok ".toList, ¬isLineTerm ch = true := by
  decide

/-- C10 (amended): `download_media` skips exactly when some archive line
equals `"tiktok <id>"`; the successful-download append writes
`"tiktok <id>\n"`, and whenever the prior content is empty or
newline-terminated the id matches on the next run. -/
theorem claim_archive_membership_exact :
    (∀ (w : World) (url output_name mid : List Char) (ph : Bool)
        (ffmpeg_path : Option (List Char)) (c : List Char),
      extract_media_ref url = some (.str mid, ph) →
      w.archive = some c →
      (alreadyFlag (download_media url output_name true ffmpeg_path w) = true
        ↔ ("tiktok ".toList ++ mid) ∈ splitlines c)) ∧
    (∀ (w : World) (id : List Char),
      (w.archive = none ∨ w.archive = some [] ∨
        ∃ c0, w.archive = some (c0 ++ ['
'])) →
      (∀ ch ∈ id, ¬isLineTerm ch = true) →
      (add_to_archive (.str id) w).world.archive
          = some ((w.archive.getD []) ++ "tiktok ".toList ++ id ++ ['
']) ∧
      ("tiktok ".toList ++ id) ∈
        splitlines (((add_to_archive (.str id) w).world.archive).getD [])) := by
  constructor
  · intro w url output_name mid ph ffmpeg_path c hext harch
    unfold download_media
    rw [hext]
    dsimp only
    by_cases hmem : ("tiktok ".toList ++ mid) ∈ splitlines c
    · have hmem2 : ('t' :: 'i' :: 'k' :: 't' :: 'o' :: 'k' :: ' ' :: mid)
          ∈ splitlines c := hmem
      simp [harch, hmem2, hmem, alreadyFlag]
    · have hmem2 : ('t' :: 'i' :: 'k' :: 't' :: 'o' :: 'k' :: ' ' :: mid)
          ∉ splitlines c := hmem
      simp [harch, hmem2, hmem, alreadyFlag_resolve_and_download]
  · intro w id harch hid
    have hline : ∀ ch ∈ ("tiktok ".toList ++ id), ¬isLineTerm ch = true := by
      intro ch hch
      rcases List.mem_append.mp hch with h | h
      · exact tiktok_tag_clean ch h
      · exact hid ch h
    refine ⟨rfl, ?_⟩
    unfold add_to_archive
    dsimp only
    rcases harch with h | h | ⟨c0, h⟩ <;> rw [h] <;>
      dsimp only [PyResult.world, Option.getD]
    · have := splitlines_clean_line ("tiktok ".toList ++ id) hline
      simp only [List.nil_append, List.append_assoc] at this ⊢
      rw [this]
      simp
    · have := splitlines_clean_line ("tiktok ".toList ++ id) hline
      simp only [List.nil_append, List.append_assoc] at this ⊢
      rw [this]
      simp
    · have hsplit := splitlines_newline_append c0
        (("tiktok ".toList ++ id) ++ ['
'])
      have hclean := splitlines_clean_line ("tiktok ".toList ++ id) hline
      have hshape : ((c0 ++ ['
']) ++ "tiktok ".toList ++ id ++ ['
'])
          = (c0 ++ ['
']) ++ (("tiktok ".toList ++ id) ++ ['
']) := by
        simp [List.append_assoc]
      rw [hshape, hsplit, hclean]
      simp

theorem claim_archive_membership_exact_witness :
    (extract_media_ref videoUrl = some (.str "123".toList, false) ∧
      ({baseWorld with archive := some "tiktok 999\n".toList} : World).archive
          = some "tiktok 999\n".toList ∧
      (alreadyFlag (download_media videoUrl "%media_id%".toList true none
          {baseWorld with archive := some "tiktok 999\n".toList}) = true ↔
        ("tiktok ".toList ++ "123".toList)
          ∈ splitlines "tiktok 999\n".toList)) ∧
    ("tiktok ".toList ++ "7".toList) ∈
      splitlines (((add_to_archive (.str "7".toList)
        {baseWorld with archive := some "x\n".toList}).world.archive).getD
          []) :=
  ⟨⟨rfl, rfl,
      claim_archive_membership_exact.1 _ videoUrl "%media_id%".toList
        "123".toList false none "tiktok 999\n".toList rfl rfl⟩,
    (claim_archive_membership_exact.2
      {baseWorld with archive := some "x\n".toList} "7".toList
      (Or.inr (Or.inr ⟨"x".toList, rfl⟩)) (by decide)).2⟩

-- ===========================================================================
-- Claim C1: resolver fallback (code bug: KeyError is not caught)
-- ===========================================================================

/-- Endpoint 0 answers HTTP 200 with the valid JSON body `{}` (no
`aweme_list` key); endpoints 1 and 2 hold a correct record for the
requested id. -/
def emptyBodyWorld : World :=
  {baseWorld with
    api := fun i => if i = 0 then ⟨200, some (.obj [])⟩
      else ⟨200, some goodBody⟩}

/-- C1 failing input: on a 200 response whose body lacks `aweme_list`,
the identity check raises `KeyError`, which the resolver's
`except (TypeError, AttributeError, IndexError)` does not catch: the run
dies after contacting only endpoint 0, although endpoint 1 holds a valid
matching record. -/
theorem claim_resolver_keyError_on_missing_record :
    (handle_url videoUrl "%media_id%".toList false none
        emptyBodyWorld).errOf = some .keyError ∧
    (handle_url videoUrl "%media_id%".toList false none
        emptyBodyWorld).world.apiCalls = [0] ∧
    (emptyBodyWorld.api 1).status = 200 ∧
    (emptyBodyWorld.api 1).body = some goodBody ∧
    jEqStr (((jSub goodBody "aweme_list".toList).bind fun a =>
      (jIdx a 0).bind fun r0 => jSub r0 "aweme_id".toList).toOption.getD
        .null) "123".toList = true :=
  ⟨rfl, by decide, by decide, rfl, by decide⟩

-- ===========================================================================
-- Claim C4: absent/null descriptor fields (code bug)
-- ===========================================================================

/-- A record with the `desc` key absent. -/
def noDescRecord : JVal := .obj [("aweme_id".toList, .str "123".toList)]

/-- A full record whose `desc` is `null`. -/
def nullDescRecord : JVal := .obj [
  ("aweme_id".toList, .str "123".toList),
  ("desc".toList, .null),
  ("create_time".toList, .num 0),
  ("author".toList, .obj [("uid".toList, .str "42".toList),
                          ("unique_id".toList, .str "user".toList)]),
  ("video".toList, .null),
  ("region".toList, .str "US".toList)]

/-- C4 failing inputs: an absent `desc` key raises `KeyError` (the
except clause does not list it); a `null` `desc` survives extraction but
the `.strip()` in the assignment block raises `AttributeError`; and a
field that does tolerate `None` (here `media_height`) renders into the
filename as `"None"`, not the empty string. -/
theorem claim_setup_patterns_raises_on_missing :
    (setup_patterns noDescRecord videoUrl baseWorld).errOf
        = some .keyError ∧
    (setup_patterns nullDescRecord videoUrl baseWorld).errOf
        = some .attributeError ∧
    get_output_name .linux {PATTERNS_TEMPLATE with media_height := .null}
      "%media_height%".toList [] = .ok "None".toList :=
  ⟨rfl, rfl, rfl⟩

-- ===========================================================================
-- Claim C5: unparseable URLs (code bug: profile URLs kill the run)
-- ===========================================================================

/-- C5 failing input: `https://www.tiktok.com/@user` matches
REGEX_TIKTOK_URL with group 2 absent, so `group(1) + group(2)`
concatenates a string with `None` — an uncaught `TypeError`
(`except IndexError` never fires) that aborts the whole run before any
remaining input is processed.  A string matching neither pattern
(`not-a-url`) is skipped and the run continues. -/
theorem claim_unparseable_url_crash :
    sanitize_url "https://www.tiktok.com/@user".toList
        = .error .typeError ∧
    (main_loop ["https://www.tiktok.com/@user".toList, videoUrl]
        "%media_id%".toList false none baseWorld).errOf = some .typeError ∧
    (main_loop ["https://www.tiktok.com/@user".toList, videoUrl]
        "%media_id%".toList false none baseWorld).world.dlCalls = [] ∧
    (main_loop ["https://www.tiktok.com/@user".toList, videoUrl]
        "%media_id%".toList false none baseWorld).world.apiCalls = [] ∧
    (main_loop ["not-a-url".toList, videoUrl] "%media_id%".toList false none
        baseWorld).valOf
      = some [.skipped, .success (.str "123".toList)] :=
  ⟨rfl, rfl, by decide, by decide, rfl⟩

-- ===========================================================================
-- Claim C9: mirror selection policy (corrected)
-- ===========================================================================

/-- First video mirror unreachable (404), second fine. -/
def twoMirrorWorld : World :=
  {baseWorld with
    dl := fun u => if u = "http://v1".toList then ⟨404, false⟩
      else ⟨200, true⟩}

/-- A gallery image with two mirrors. -/
def galleryImage : JVal := .obj [("owner_watermark_image".toList, .obj [
  ("height".toList, .num 10), ("width".toList, .num 20),
  ("url_list".toList,
    .arr [.str "http://lo".toList, .str "http://hi".toList])])]

/-- A two-image gallery record. -/
def galleryRecord : JVal := .obj [
  ("aweme_id".toList, .str "77".toList),
  ("desc".toList, .str "d".toList),
  ("create_time".toList, .num 0),
  ("author".toList, .obj [("uid".toList, .str "1".toList),
                          ("unique_id".toList, .str "u".toList)]),
  ("video".toList, .null),
  ("region".toList, .str "US".toList),
  ("image_post_info".toList,
    .obj [("images".toList, .arr [galleryImage, galleryImage])])]

def galleryWorld : World :=
  {baseWorld with
    api := fun _ => ⟨200, some (.obj [("aweme_list".toList,
      .arr [galleryRecord])])⟩}

def photoUrl : List Char := "https://www.tiktok.com/@user/photo/77".toList

/-- C9 counterexample: with the first video mirror failing, the download
succeeds using the second mirror — the URL list is not "tried once,
using the first mirror"; and in a two-image gallery the first
successful image download raises an uncaught `TypeError` (the filename
list is passed to `add_tags_photo` where a single path is expected). -/
theorem claim_mirror_policy_counterexample :
    (handle_url videoUrl "%media_id%".toList false none twoMirrorWorld).valOf
        = some (.success (.str "123".toList)) ∧
    (handle_url videoUrl "%media_id%".toList false none
        twoMirrorWorld).world.dlCalls
      = ["http://v1".toList, "http://v2".toList] ∧
    (handle_url videoUrl "%media_id%".toList false none
        twoMirrorWorld).world.dlCalls ≠ ["http://v1".toList] ∧
    (handle_url photoUrl "%media_id%".toList false none galleryWorld).errOf
        = some .typeError ∧
    (handle_url photoUrl "%media_id%".toList false none
        galleryWorld).world.dlCalls = ["http://hi".toList] :=
  ⟨rfl, by decide, by decide, rfl, by decide⟩

/-- The destination path computed by `download_video` reads only the
platform, patterns, working directory and filesystem of the world, so
appending to the download trace leaves it unchanged. -/
theorem video_target_dlCalls (w : World) (d : List (List Char))
    (n : List Char) : video_target {w with dlCalls := d} n
      = video_target w n := rfl

/-- The video mirror loop requests the mirrors in list order and stops
at the first whose download succeeds. -/
theorem video_loop_order :
    ∀ (pre : List (List Char)) (w : World) (u : List Char)
      (post : List JVal) (output_name tv : List Char),
      video_target w output_name = .ok tv →
      (∀ x ∈ pre, (w.dl x).status ≠ 200) →
      (w.dl u).status = 200 → (w.dl u).streamOk = true →
      (∀ q, w.openOk q = true) →
      w.patterns.mod_time = .num 0 →
      (video_loop (pre.map JVal.str ++ .str u :: post)
        output_name none w).valOf = some true ∧
      (video_loop (pre.map JVal.str ++ .str u :: post)
        output_name none w).world.dlCalls = w.dlCalls ++ pre ++ [u] := by
  intro pre
  induction pre with
  | nil =>
    intro w u post output_name tv htv _ hst hstream hopen hmod
    simp only [List.map_nil, List.nil_append, video_loop, asStr, liftE,
      PyResult.andThen, download_video, download_data, htv]
    simp [hst, hstream, hopen, hmod, restore_modtime, pyNeZero, numericJ,
      PyResult.andThen, PyResult.valOf, PyResult.world]
  | cons x pre ih =>
    intro w u post output_name tv htv hfail hst hstream hopen hmod
    have hx : (w.dl x).status ≠ 200 := hfail x (by simp)
    have hrec := ih {w with dlCalls := w.dlCalls ++ [x]} u post output_name
      tv (by rw [video_target_dlCalls]; exact htv)
      (fun y hy => hfail y (by simp [hy])) hst hstream hopen hmod
    have hstep : video_loop ((x :: pre).map JVal.str ++ .str u :: post)
        output_name none w
        = video_loop (pre.map JVal.str ++ .str u :: post) output_name none
          {w with dlCalls := w.dlCalls ++ [x]} := by
      simp [video_loop, asStr, liftE, PyResult.andThen, download_video,
        download_data, htv, hx]
    rw [hstep]
    refine ⟨hrec.1, ?_⟩
    rw [hrec.2]
    simp

/-- The photo mirror loop (run by `download_photos` on the REVERSED
mirror list of each image) requests the reversed mirrors in order and
stops at the first whose download succeeds. -/
theorem photo_loop_order :
    ∀ (pre : List (List Char)) (w : World) (u : List Char)
      (post : List JVal) (mirrors : List JVal) (output_file : List Char),
      mirrors.reverse = pre.map JVal.str ++ .str u :: post →
      (∀ x ∈ pre, (w.dl x).status ≠ 200) →
      (w.dl u).status = 200 → (w.dl u).streamOk = true →
      (∀ q, w.openOk q = true) →
      w.patterns.mod_time = .num 0 →
      (photo_mirror_loop mirrors.reverse output_file (.num 0) w).valOf
          = some true ∧
      (photo_mirror_loop mirrors.reverse output_file (.num 0) w).world.dlCalls
          = w.dlCalls ++ pre ++ [u] := by
  have main : ∀ (pre : List (List Char)) (w : World) (u : List Char)
      (post : List JVal) (output_file : List Char),
      (∀ x ∈ pre, (w.dl x).status ≠ 200) →
      (w.dl u).status = 200 → (w.dl u).streamOk = true →
      (∀ q, w.openOk q = true) →
      w.patterns.mod_time = .num 0 →
      (photo_mirror_loop (pre.map JVal.str ++ .str u :: post) output_file
        (.num 0) w).valOf = some true ∧
      (photo_mirror_loop (pre.map JVal.str ++ .str u :: post) output_file
        (.num 0) w).world.dlCalls = w.dlCalls ++ pre ++ [u] := by
    intro pre
    induction pre with
    | nil =>
      intro w u post output_file _ hst hstream hopen hmod
      simp only [List.map_nil, List.nil_append, photo_mirror_loop, asStr,
        liftE, PyResult.andThen, download_data, add_tags_photo,
        restore_modtime]
      simp [hst, hstream, hopen, hmod, pyNeZero, numericJ, mem_fsAdd,
        PyResult.andThen, PyResult.valOf, PyResult.world]
    | cons x pre ih =>
      intro w u post output_file hfail hst hstream hopen hmod
      have hx : (w.dl x).status ≠ 200 := hfail x (by simp)
      have hrec := ih {w with dlCalls := w.dlCalls ++ [x]} u post output_file
        (fun y hy => hfail y (by simp [hy])) hst hstream hopen hmod
      have hstep : photo_mirror_loop ((x :: pre).map JVal.str
            ++ .str u :: post) output_file (.num 0) w
          = photo_mirror_loop (pre.map JVal.str ++ .str u :: post)
            output_file (.num 0) {w with dlCalls := w.dlCalls ++ [x]} := by
        simp [photo_mirror_loop, asStr, liftE, PyResult.andThen,
          download_data, hx]
      rw [hstep]
      refine ⟨hrec.1, ?_⟩
      rw [hrec.2]
      simp
  intro pre w u post mirrors output_file hrev hfail hst hstream hopen hmod
  rw [hrev]
  exact main pre w u post output_file hfail hst hstream hopen hmod

/-- C9 (amended): for a video the mirror list is tried in order until a
download succeeds and no later mirror is contacted; for a photo the
image's mirror list is walked in reverse order until a download
succeeds. -/
theorem claim_mirror_order :
    (∀ (pre : List (List Char)) (w : World) (u : List Char)
        (post : List JVal) (output_name tv : List Char),
      video_target w output_name = .ok tv →
      (∀ x ∈ pre, (w.dl x).status ≠ 200) →
      (w.dl u).status = 200 → (w.dl u).streamOk = true →
      (∀ q, w.openOk q = true) →
      w.patterns.mod_time = .num 0 →
      (video_loop (pre.map JVal.str ++ .str u :: post)
        output_name none w).valOf = some true ∧
      (video_loop (pre.map JVal.str ++ .str u :: post)
        output_name none w).world.dlCalls = w.dlCalls ++ pre ++ [u]) ∧
    (∀ (pre : List (List Char)) (w : World) (u : List Char)
        (post : List JVal) (mirrors : List JVal) (output_file : List Char),
      mirrors.reverse = pre.map JVal.str ++ .str u :: post →
      (∀ x ∈ pre, (w.dl x).status ≠ 200) →
      (w.dl u).status = 200 → (w.dl u).streamOk = true →
      (∀ q, w.openOk q = true) →
      w.patterns.mod_time = .num 0 →
      (photo_mirror_loop mirrors.reverse output_file (.num 0) w).valOf
          = some true ∧
      (photo_mirror_loop mirrors.reverse output_file (.num 0)
        w).world.dlCalls = w.dlCalls ++ pre ++ [u]) :=
  ⟨video_loop_order, photo_loop_order⟩

/-- A world where the first video mirror and the better photo mirror
are unreachable, with the zeroed timestamp the loops pass around. -/
def mirrorWitnessWorld : World :=
  {baseWorld with
    patterns := {PATTERNS_TEMPLATE with mod_time := .num 0},
    dl := fun u =>
      if u = "http://v1".toList ∨ u = "http://hi".toList then ⟨404, false⟩
      else ⟨200, true⟩}

theorem claim_mirror_order_witness :
    ((video_target mirrorWitnessWorld "n".toList = .ok "/d/n.mp4".toList) ∧
      (∀ x ∈ ["http://v1".toList], (mirrorWitnessWorld.dl x).status ≠ 200) ∧
      (mirrorWitnessWorld.dl "http://v2".toList).status = 200 ∧
      (video_loop (["http://v1".toList].map JVal.str
          ++ .str "http://v2".toList :: []) "n".toList none
        mirrorWitnessWorld).valOf = some true ∧
      (video_loop (["http://v1".toList].map JVal.str
          ++ .str "http://v2".toList :: []) "n".toList none
        mirrorWitnessWorld).world.dlCalls
        = mirrorWitnessWorld.dlCalls ++ ["http://v1".toList]
          ++ ["http://v2".toList]) ∧
    (([JVal.str "http://lo".toList, JVal.str "http://hi".toList].reverse
        = ["http://hi".toList].map JVal.str
          ++ .str "http://lo".toList :: []) ∧
      (photo_mirror_loop
        [JVal.str "http://lo".toList, JVal.str "http://hi".toList].reverse
        "/d/p.jpg".toList (.num 0) mirrorWitnessWorld).valOf = some true ∧
      (photo_mirror_loop
        [JVal.str "http://lo".toList, JVal.str "http://hi".toList].reverse
        "/d/p.jpg".toList (.num 0) mirrorWitnessWorld).world.dlCalls
        = mirrorWitnessWorld.dlCalls ++ ["http://hi".toList]
          ++ ["http://lo".toList]) := by
  constructor
  · refine ⟨rfl, by decide, by decide, ?_⟩
    exact claim_mirror_order.1 ["http://v1".toList] mirrorWitnessWorld
      "http://v2".toList [] "n".toList "/d/n.mp4".toList rfl (by decide)
      (by decide) (by decide) (fun _ => rfl) rfl
  · refine ⟨rfl, ?_⟩
    exact claim_mirror_order.2 ["http://hi".toList] mirrorWitnessWorld
      "http://lo".toList []
      [JVal.str "http://lo".toList, JVal.str "http://hi".toList]
      "/d/p.jpg".toList rfl (by decide) (by decide) (by decide)
      (fun _ => rfl) rfl

end TT
